import Mathlib

/-!
# Login system with bot detection: the authentication pipeline

A shallow embedding of the Express backend (`backend/src`): the signup and
login controllers, the honeypot middleware and the route chains, together
with the properties of the abuse-mitigation pipeline.

Conventions of the embedding.

* Request body fields are JavaScript values (`JsVal`); truthiness, `||`,
  `!==` and `.length` follow the language.
* Every call that leaves the controller (store, password comparison, CAPTCHA
  service, token signing, attempt log) is an oracle of `Deps`; a call either
  returns or throws (`Except String _`, the string being `error.message`).
* A handler returns the response it sends and the trace of the external
  calls it made, in order. "Never runs X" is a statement about the trace.
* Numbers of a request or reply are exact decimals `m / 10 ^ e`. The counter
  `failedLoginAttempts` is a natural number, and `+= 1` on it is the addition
  of doubles (`jsAddOne`): exact below `2 ^ 53`, rounded above.
-/

namespace LoginSystem

/-! ## JavaScript values -/

/-- A value of a parsed JSON request body field. `num m e` is the decimal
`m / 10 ^ e`. `obj length` stands for any object or array; `length` is its
numeric `length` property when it has one. -/
inductive JsVal where
  | undefined
  | null
  | bool (b : Bool)
  | num (m : Int) (e : Nat)
  | str (s : String)
  | obj (length : Option Nat)
  deriving DecidableEq, Repr

namespace JsVal

/-- JavaScript truthiness (`if (v)`, `!v`). -/
def truthy : JsVal → Bool
  | undefined => false
  | null => false
  | bool b => b
  | num m _ => m != 0
  | str s => s != ""
  | obj _ => true

/-- The operator `a || b`. -/
def or (a b : JsVal) : JsVal := if a.truthy then a else b

/-- The operator `a !== b` on two distinct fields of a parsed body: primitives
compare by value, two objects are never the same reference. -/
def strictNe : JsVal → JsVal → Bool
  | undefined, undefined => false
  | null, null => false
  | bool a, bool b => a != b
  | num m e, num n f => m * 10 ^ f != n * 10 ^ e
  | str a, str b => a != b
  | _, _ => true

end JsVal

/-- Number of UTF-16 code units of a string (`String.prototype.length`). -/
def utf16Length (s : String) : Nat :=
  s.toList.foldl (fun n c => n + (if c.toNat < 0x10000 then 1 else 2)) 0

/-- The test `v.length < k`: reading `.length` of `undefined` or `null`
throws; a missing `length` is `undefined`, and `undefined < k` is false. -/
def lengthLt (v : JsVal) (k : Nat) : Except String Bool :=
  match v with
  | .undefined => .error "Cannot read properties of undefined (reading length)"
  | .null => .error "Cannot read properties of null (reading length)"
  | .str s => .ok (decide (utf16Length s < k))
  | .obj (some n) => .ok (decide (n < k))
  | _ => .ok false

/-! ## Responses -/

/-- A scalar of a response payload. -/
inductive JsonLeaf where
  | bool (b : Bool)
  | str (s : String)
  deriving DecidableEq, Repr

/-- A value of a response payload: a scalar or a flat object. -/
inductive JsonVal where
  | leaf (v : JsonLeaf)
  | obj (fields : List (String × JsonLeaf))
  deriving DecidableEq, Repr

/-- The pair `res.status(code).json(body)`. -/
structure Response where
  status : Nat
  body : List (String × JsonVal)
  deriving DecidableEq, Repr

namespace Response

/-- Value of a top-level key of the payload. -/
def field (r : Response) (k : String) : Option JsonVal :=
  (r.body.find? (fun p => p.1 == k)).map (fun p => p.2)

/-- Top-level keys of the payload, in order. -/
def keys (r : Response) : List String := r.body.map (fun p => p.1)

/-- Every key of the payload: the top-level keys followed by the keys of its
object-valued fields. -/
def allKeys (r : Response) : List String :=
  r.keys ++ (r.body.map (fun p => match p.2 with
    | .obj fields => fields.map (fun f => f.1)
    | .leaf _ => [])).flatten

/-- The `message` string of the payload. -/
def message (r : Response) : Option String :=
  match r.field "message" with
  | some (.leaf (.str s)) => some s
  | _ => none

end Response

/-- The payload `{ success: false, message }`. -/
def failure (status : Nat) (message : String) : Response :=
  ⟨status, [("success", .leaf (.bool false)), ("message", .leaf (.str message))]⟩

/-! ## Accounts and collaborators -/

/-- Modelled from the spec: the User model (`models/User.js`), which is not
among the sources. An account has a durable identifier, unique email and
username, a password digest, the failure counter and two advisory
timestamps. -/
structure User where
  _id : String
  email : String
  username : String
  password : String
  failedLoginAttempts : Nat
  lastFailedLoginTime : Option Nat
  lastLoginTime : Option Nat
  deriving DecidableEq, Repr

/-- The two store queries the controllers issue. -/
inductive Query where
  | byEmail (email : JsVal)
  | emailOrUsername (email username : JsVal)
  deriving DecidableEq, Repr

/-- The claims object passed to `jwt.sign`. -/
structure Claims where
  id : String
  email : String
  deriving DecidableEq, Repr

/-- Score field of a verification reply. -/
inductive Score where
  | absent
  | null
  | bool (b : Bool)
  | num (m : Int) (e : Nat)
  deriving DecidableEq, Repr

/-- The `data` of a reply of the CAPTCHA verification service. A reply whose
`data` cannot be read makes the `try` block throw, like a failed call. -/
structure CaptchaData where
  success : JsVal
  score : Score
  deriving DecidableEq, Repr

/-- The comparison `score < 0.5`: `undefined` converts to NaN (false), `null`
and `false` to 0, `true` to 1. -/
def Score.belowHalf : Score → Bool
  | .absent => false
  | .null => true
  | .bool b => !b
  | .num m e => decide (2 * m < 10 ^ e)

/-- A document of the attempt ledger, as passed to `RequestLog.create`. -/
structure LogRecord where
  ipAddress : Option String
  endpoint : String
  method : String
  userAgent : Option String
  email : JsVal
  status : String
  reason : Option String
  deriving DecidableEq, Repr

/-- Process environment variables read by the backend. -/
structure Env where
  JWT_SECRET : Option String
  JWT_EXPIRE : Option String
  RECAPTCHA_SECRET_KEY : Option String
  deriving DecidableEq, Repr

/-- The operator `v || fallback` on an environment variable: an unset or empty
variable is falsy. -/
def Env.orElse (v : Option String) (fallback : String) : String :=
  match v with
  | some s => if s != "" then s else fallback
  | none => fallback

/-- The external collaborators of one request. Each call returns or throws. -/
structure Deps where
  env : Env
  now : Nat
  findOne : Query → Except String (Option User)
  create : JsVal → JsVal → JsVal → Except String User
  save : User → Except String Unit
  matchPassword : User → JsVal → Except String Bool
  axiosPost : String → Option String → JsVal → Except String CaptchaData
  jwtSign : Claims → String → String → Except String String
  logCreate : LogRecord → Except String Unit

/-- An external call made while handling a request. -/
inductive Effect where
  | findOne (q : Query)
  | create (email username password : JsVal)
  | save (u : User)
  | matchPassword (u : User) (password : JsVal)
  | axiosPost (url : String) (secret : Option String) (response : JsVal)
  | jwtSign (c : Claims) (secret expiresIn : String)
  | logCreate (r : LogRecord)
  deriving DecidableEq, Repr

namespace Effect

/-- A read or write of the credential store. -/
def isStore : Effect → Bool
  | findOne _ => true
  | create _ _ _ => true
  | save _ => true
  | _ => false

/-- A read of the credential store. -/
def isFindOne : Effect → Bool
  | findOne _ => true
  | _ => false

/-- A write of the credential store. -/
def isWrite : Effect → Bool
  | create _ _ _ => true
  | save _ => true
  | _ => false

/-- An account creation. -/
def isCreate : Effect → Bool
  | create _ _ _ => true
  | _ => false

/-- A password verification. -/
def isMatchPassword : Effect → Bool
  | matchPassword _ _ => true
  | _ => false

/-- A call of the CAPTCHA verification service. -/
def isCaptcha : Effect → Bool
  | axiosPost _ _ _ => true
  | _ => false

/-- A token issuance. -/
def isSign : Effect → Bool
  | jwtSign _ _ _ => true
  | _ => false

end Effect

/-- What a controller did: the external calls, in order, and the response. -/
structure Run where
  trace : List Effect
  res : Response
  deriving DecidableEq, Repr

/-- Prefix a run with calls made before it. -/
def Run.after (pre : List Effect) (r : Run) : Run := ⟨pre ++ r.trace, r.res⟩

/-! ## `config/constants.js` -/

def FAILED_LOGIN_ATTEMPTS_THRESHOLD : Nat := 3

def CAPTCHA_REQUIRED_AFTER_ATTEMPTS : Nat := 3

def RECAPTCHA_VERIFY_URL : String := "https://www.google.com/recaptcha/api/siteverify"

/-! ## `controllers/authController.js` -/

/-- The call `generateToken(user)`: signs `{ id, email }` with
`JWT_SECRET || 'your_secret_key'` and `expiresIn: JWT_EXPIRE || '7d'`. -/
def generateToken (d : Deps) (user : User) : List Effect × Except String String :=
  let claims : Claims := ⟨user._id, user.email⟩
  let secret := Env.orElse d.env.JWT_SECRET "your_secret_key"
  let expiresIn := Env.orElse d.env.JWT_EXPIRE "7d"
  ([.jwtSign claims secret expiresIn], d.jwtSign claims secret expiresIn)

/-- The object `{ id, email, username }` returned for an account. -/
def userPayload (u : User) : JsonVal :=
  .obj [("id", .str u._id), ("email", .str u.email), ("username", .str u.username)]

/-- The request body of the auth endpoints. -/
structure Body where
  email : JsVal
  username : JsVal
  password : JsVal
  confirmPassword : JsVal
  recaptchaToken : JsVal
  website : JsVal
  deriving DecidableEq, Repr

/-- The `catch` block of `signup`: status 500 with
`error.message || 'Error during signup. Please try again.'`. -/
def signupCatch (error : String) : Response :=
  failure 500 (if error != "" then error else "Error during signup. Please try again.")

/-- The signup controller. -/
def signup (d : Deps) (body : Body) : Run :=
  let email := body.email
  let username := body.username
  let password := body.password
  let confirmPassword := body.confirmPassword
  if !email.truthy || !username.truthy || !password.truthy || !confirmPassword.truthy then
    ⟨[], failure 400 "Please provide all required fields."⟩
  else if password.strictNe confirmPassword then
    ⟨[], failure 400 "Passwords do not match."⟩
  else
    match lengthLt password 6 with
    | .error e => ⟨[], signupCatch e⟩
    | .ok true => ⟨[], failure 400 "Password must be at least 6 characters long."⟩
    | .ok false =>
      let q := Query.emailOrUsername email username
      match d.findOne q with
      | .error e => ⟨[.findOne q], signupCatch e⟩
      | .ok (some _) => ⟨[.findOne q], failure 409 "Email or username already exists."⟩
      | .ok none =>
        match d.create email username password with
        | .error e => ⟨[.findOne q, .create email username password], signupCatch e⟩
        | .ok newUser =>
          let t := generateToken d newUser
          match t.2 with
          | .error e => ⟨[.findOne q, .create email username password] ++ t.1, signupCatch e⟩
          | .ok token =>
            ⟨[.findOne q, .create email username password] ++ t.1,
              ⟨201, [("success", .leaf (.bool true)),
                     ("message", .leaf (.str "User created successfully.")),
                     ("token", .leaf (.str token)),
                     ("user", userPayload newUser)]⟩⟩

/-- The statement `n += 1` on a counter held as a double: the sum `n + 1`
rounded to the nearest double, ties to even. Below `2 ^ 53` the sum is exact.
From `2 ^ 53` to `2 ^ 54` doubles are the even numbers, `n + 1` lies halfway
between `n` and `n + 2`, and the one whose half is even is taken (`2 ^ 53`
stays `2 ^ 53`). From `2 ^ 54` on the sum rounds back to `n`. -/
def jsAddOne (n : Nat) : Nat :=
  if n < 2 ^ 53 then n + 1
  else if n < 2 ^ 54 then (if n % 4 = 0 then n else n + 2)
  else n

/-- The outer `catch` block of `login`. -/
def loginCatch : Response := failure 500 "Error during login. Please try again."

/-- Lines 153 to 187 of `login`: compare the password, record the outcome on
the account, respond. -/
def loginVerify (d : Deps) (user : User) (password : JsVal) : Run :=
  match d.matchPassword user password with
  | .error _ => ⟨[.matchPassword user password], loginCatch⟩
  | .ok false =>
    let user1 := { user with
      failedLoginAttempts := jsAddOne user.failedLoginAttempts
      lastFailedLoginTime := some d.now }
    match d.save user1 with
    | .error _ => ⟨[.matchPassword user password, .save user1], loginCatch⟩
    | .ok _ =>
      ⟨[.matchPassword user password, .save user1],
        ⟨401, [("success", .leaf (.bool false)),
               ("message", .leaf (.str "Invalid email or password.")),
               ("requiresCaptcha",
                 .leaf (.bool (decide (user1.failedLoginAttempts ≥ CAPTCHA_REQUIRED_AFTER_ATTEMPTS))))]⟩⟩
  | .ok true =>
    let user1 := { user with failedLoginAttempts := 0, lastLoginTime := some d.now }
    match d.save user1 with
    | .error _ => ⟨[.matchPassword user password, .save user1], loginCatch⟩
    | .ok _ =>
      let t := generateToken d user1
      match t.2 with
      | .error _ => ⟨[.matchPassword user password, .save user1] ++ t.1, loginCatch⟩
      | .ok token =>
        ⟨[.matchPassword user password, .save user1] ++ t.1,
          ⟨200, [("success", .leaf (.bool true)),
                 ("message", .leaf (.str "Login successful.")),
                 ("token", .leaf (.str token)),
                 ("user", userPayload user1)]⟩⟩

/-- The login controller. -/
def login (d : Deps) (body : Body) : Run :=
  let email := body.email
  let password := body.password
  let recaptchaToken := body.recaptchaToken
  if !email.truthy || !password.truthy then
    ⟨[], failure 400 "Please provide email and password."⟩
  else
    let q := Query.byEmail email
    match d.findOne q with
    | .error _ => ⟨[.findOne q], loginCatch⟩
    | .ok none => ⟨[.findOne q], failure 401 "Invalid email or password."⟩
    | .ok (some user) =>
      if user.failedLoginAttempts ≥ CAPTCHA_REQUIRED_AFTER_ATTEMPTS then
        if !recaptchaToken.truthy then
          ⟨[.findOne q],
            ⟨403, [("success", .leaf (.bool false)),
                   ("requiresCaptcha", .leaf (.bool true)),
                   ("message",
                     .leaf (.str "Too many failed attempts. CAPTCHA verification required."))]⟩⟩
        else
          let call := Effect.axiosPost RECAPTCHA_VERIFY_URL d.env.RECAPTCHA_SECRET_KEY recaptchaToken
          match d.axiosPost RECAPTCHA_VERIFY_URL d.env.RECAPTCHA_SECRET_KEY recaptchaToken with
          | .error _ =>
            ⟨[.findOne q, call], failure 500 "Error verifying CAPTCHA. Please try again."⟩
          | .ok data =>
            if !data.success.truthy || data.score.belowHalf then
              ⟨[.findOne q, call], failure 403 "CAPTCHA verification failed. Please try again."⟩
            else
              (loginVerify d user password).after [.findOne q, call]
      else
        (loginVerify d user password).after [.findOne q]

/-! ## `middleware/honeypot.js` -/

/-- The parts of an Express request the backend reads. `ip` is `req.ip`,
`remoteAddress` is `req.connection.remoteAddress`, `userAgent` is
`req.get('user-agent')`, `authorization` is `req.header('Authorization')`. -/
structure Request where
  ip : Option String
  remoteAddress : Option String
  path : String
  method : String
  userAgent : Option String
  authorization : Option String
  body : Body
  deriving DecidableEq, Repr

/-- The expression `req.ip || req.connection.remoteAddress`. -/
def clientAddress (req : Request) : Option String :=
  match req.ip with
  | some a => if a != "" then some a else req.remoteAddress
  | none => req.remoteAddress

/-- The expression `req.body.email || null`. -/
def declaredEmail (req : Request) : JsVal := req.body.email.or .null

/-- What a middleware did: the external calls it made and either the
response it sent (`some`) or the hand-over to the next handler (`none`, the
call `next()`). -/
structure MwRun where
  trace : List Effect
  res : Option Response
  deriving DecidableEq, Repr

/-- The record the honeypot middleware writes to the attempt ledger. -/
def honeypotRecord (req : Request) : LogRecord where
  ipAddress := clientAddress req
  endpoint := req.path
  method := req.method
  userAgent := req.userAgent
  email := declaredEmail req
  status := "suspicious"
  reason := some "Honeypot field filled - likely bot"

/-- The honeypot middleware. The `try`/`catch` around `RequestLog.create`
swallows a failed write. -/
def honeypotMiddleware (d : Deps) (req : Request) : MwRun :=
  let honeypotField := req.body.website.or (.str "")
  if honeypotField.truthy then
    let record := honeypotRecord req
    match d.logCreate record with
    | .ok _ => ⟨[.logCreate record], some (failure 400 "Invalid request. Please try again.")⟩
    | .error _ => ⟨[.logCreate record], some (failure 400 "Invalid request. Please try again.")⟩
  else
    ⟨[], none⟩

/-! ## `middleware/rateLimiter.js` -/

/-- The options object passed to `rateLimit` (the header switches, which do
not affect the decision, are left out). -/
structure RateLimitOptions where
  windowMs : Nat
  max : Nat
  message : String
  deriving DecidableEq, Repr

/-- Options of the login limiter. -/
def loginLimiter : RateLimitOptions :=
  ⟨10 * 60 * 1000, 5, "Too many login attempts from this IP, please try again later."⟩

/-- Options of the signup limiter. -/
def signupLimiter : RateLimitOptions :=
  ⟨10 * 60 * 1000, 5, "Too many signup attempts from this IP, please try again later."⟩

/-- The `keyGenerator` of both limiters. -/
def keyGenerator (req : Request) : Option String := clientAddress req

/-- The counter of one key: hits in the current window and the time the
window ends. -/
structure Window where
  totalHits : Nat
  resetTime : Nat
  deriving DecidableEq, Repr

/-- The counters of a limiter, by key. -/
abbrev HitStore := Option String → Option Window

/-- A limiter that has seen no request. -/
def HitStore.empty : HitStore := fun _ => none

/-- Modelled from the spec: the window counter of the `express-rate-limit`
package, which is not among the sources. A hit of `key` at time `now` opens a
window of `windowMs` when the key has no window or its window has ended, and
otherwise counts into the open window; the request is passed on when the
count is at most `max`. Rejected requests count as hits. -/
def rateLimit (o : RateLimitOptions) (store : HitStore) (now : Nat) (key : Option String) :
    HitStore × Bool :=
  let w : Window :=
    match store key with
    | some w => if now < w.resetTime then ⟨w.totalHits + 1, w.resetTime⟩ else ⟨1, now + o.windowMs⟩
    | none => ⟨1, now + o.windowMs⟩
  (fun k => if k = key then some w else store k, decide (w.totalHits ≤ o.max))

/-! ## `routes/authRoutes.js` -/

/-- What the client receives: a JSON response of a handler, or the plain
text the limiter sends with status 429. -/
inductive Reply where
  | json (r : Response)
  | text (status : Nat) (message : String)
  deriving DecidableEq, Repr

/-- The run of a route chain: the limiter counters afterwards, the external
calls made, and the reply. -/
structure RouteRun where
  store : HitStore
  trace : List Effect
  reply : Reply

/-- A chain `limiter, honeypotMiddleware, controller`: each handler runs only
when the one before called `next()`. The request arrives at time `d.now`. -/
def chain (o : RateLimitOptions) (controller : Deps → Body → Run) (d : Deps)
    (store : HitStore) (req : Request) : RouteRun :=
  let lim := rateLimit o store d.now (keyGenerator req)
  if lim.2 then
    let h := honeypotMiddleware d req
    match h.res with
    | some r => ⟨lim.1, h.trace, .json r⟩
    | none =>
      let c := controller d req.body
      ⟨lim.1, h.trace ++ c.trace, .json c.res⟩
  else
    ⟨lim.1, [], .text 429 o.message⟩

/-- The handlers of a chain that follow the limiter, run on a request the
limiter passed on: `honeypotMiddleware`, then the controller when the
middleware called `next()`. -/
def passOn (controller : Deps → Body → Run) (d : Deps) (req : Request) :
    List Effect × Reply :=
  let h := honeypotMiddleware d req
  match h.res with
  | some r => (h.trace, .json r)
  | none =>
    let c := controller d req.body
    (h.trace ++ c.trace, .json c.res)

/-- A route serving successive requests: each request, with the collaborators
and clock of its arrival, meets the limiter counters the previous run left. -/
def routeAll (route : Deps → HitStore → Request → RouteRun) :
    HitStore → List (Deps × Request) → List RouteRun
  | _, [] => []
  | store, (d, req) :: rest =>
    let r := route d store req
    r :: routeAll route r.store rest

/-- The route `POST /signup`. -/
def signupRoute : Deps → HitStore → Request → RouteRun := chain signupLimiter signup

/-- The route `POST /login`. -/
def loginRoute : Deps → HitStore → Request → RouteRun := chain loginLimiter login

/-- Whether `text` contains `word`, ignoring case. -/
def mentions (word text : String) : Bool :=
  let w := word.toList.map Char.toLower
  let rec go : List Char → Bool
    | [] => w.isEmpty
    | c :: cs => w.isPrefixOf (c :: cs) || go cs
  go (text.toList.map Char.toLower)

/-! ## An in-memory instance of the collaborators -/

/-- Modelled from the spec: the credential store lookup (`User.findOne`) over
a list of accounts. The User model and the storage engine are not among the
sources; a query matches the first account whose email (or, for the combined
query, email or username) equals the given string. -/
def storeFind (users : List User) : Query → Option User
  | .byEmail e => users.find? (fun u => JsVal.str u.email == e)
  | .emailOrUsername e n =>
    users.find? (fun u => JsVal.str u.email == e || JsVal.str u.username == n)

/-- Modelled from the spec: an in-memory instance of the collaborators, used
to run the handlers on concrete requests. The digest of `p` is `"h:" ++ p`; the
CAPTCHA service accepts the response `"human"` with score 0.9 and answers any
other response with `success: false`; a token is the signed id and email
joined with the secret. -/
def memDeps (users : List User) (now : Nat) : Deps where
  env := ⟨none, none, none⟩
  now := now
  findOne := fun q => .ok (storeFind users q)
  create := fun e n p =>
    match e, n, p with
    | .str e, .str n, .str p =>
      .ok ⟨"id" ++ toString users.length, e, n, "h:" ++ p, 0, none, none⟩
    | _, _, _ => .error "User validation failed"
  save := fun _ => .ok ()
  matchPassword := fun u p =>
    match p with
    | .str s => .ok (u.password == "h:" ++ s)
    | _ => .error "Illegal arguments"
  axiosPost := fun _ _ r =>
    if r = JsVal.str "human" then .ok ⟨.bool true, .num 9 1⟩ else .ok ⟨.bool false, .absent⟩
  jwtSign := fun c secret _ => .ok (c.id ++ ":" ++ c.email ++ ":" ++ secret)
  logCreate := fun _ => .ok ()

/-- An account `alice` with a given number of failed logins; her password is
`"secret1"`. -/
def alice (failed : Nat) : User :=
  ⟨"id0", "alice@example.com", "alice", "h:secret1", failed, none, none⟩

/-- A request from address `10.0.0.1` to the given path. -/
def requestFrom (path : String) (body : Body) : Request :=
  ⟨some "10.0.0.1", none, path, "POST", some "curl/8.0", none, body⟩

/-- A login request from the given address. -/
def requestFromAddress (address : String) (body : Body) : Request :=
  ⟨some address, none, "/login", "POST", some "curl/8.0", none, body⟩

/-- The collaborators of eight successive arrivals: number 0 at 5.5 s, numbers
1 to 6 at 1 s to 6 s, number 7 at 601 s. -/
def arrivals (i : Nat) : Deps :=
  memDeps [alice 0] (match i with
    | 0 => 5500
    | 7 => 601000
    | k => k * 1000)

/-- The login of `alice` with her password, sent from `10.0.0.1` for every
number but 0 and from `10.0.0.2` for number 0. -/
def senders (i : Nat) : Request :=
  requestFromAddress (match i with
    | 0 => "10.0.0.2"
    | _ => "10.0.0.1")
    ⟨.str "alice@example.com", .undefined, .str "secret1", .undefined, .undefined, .undefined⟩

/-- A login body with the given email, password and CAPTCHA response. -/
def loginBody (email password recaptchaToken : JsVal) : Body :=
  ⟨email, .undefined, password, .undefined, recaptchaToken, .undefined⟩

/-- The call of the CAPTCHA verification service made by `login`. -/
def captchaCall (d : Deps) (body : Body) : Effect :=
  .axiosPost RECAPTCHA_VERIFY_URL d.env.RECAPTCHA_SECRET_KEY body.recaptchaToken

/-- The reply of the CAPTCHA verification service to that call. -/
def captchaReply (d : Deps) (body : Body) : Except String CaptchaData :=
  d.axiosPost RECAPTCHA_VERIFY_URL d.env.RECAPTCHA_SECRET_KEY body.recaptchaToken

/-- The three validation tests of `signup` all pass: every required field is
truthy, `password !== confirmPassword` is false, and `password.length < 6` is
false. -/
def passesValidation (body : Body) : Bool :=
  body.email.truthy && body.username.truthy && body.password.truthy &&
    body.confirmPassword.truthy && !body.password.strictNe body.confirmPassword &&
    (match lengthLt body.password 6 with
      | .ok false => true
      | _ => false)

/-- A signup body. -/
def signupBody (email username password confirmPassword : JsVal) : Body :=
  ⟨email, username, password, confirmPassword, .undefined, .undefined⟩

/-- The account `bob`, who has never failed a login. -/
def bob : User := ⟨"id1", "bob@example.com", "bob", "h:hunter22", 0, none, none⟩

/-! ## Reading traces -/

/-- The accounts written by `user.save()`, in order. -/
def savedAccounts (t : List Effect) : List User :=
  t.filterMap (fun e => match e with
    | .save u => some u
    | _ => none)

/-- The account after a failed verification at time `now`. -/
def User.afterFailure (u : User) (now : Nat) : User :=
  { u with
    failedLoginAttempts := jsAddOne u.failedLoginAttempts
    lastFailedLoginTime := some now }

/-- The account after a successful verification at time `now`. -/
def User.afterSuccess (u : User) (now : Nat) : User :=
  { u with failedLoginAttempts := 0, lastLoginTime := some now }

/-! ## `middleware/authentication.js` -/

/-- The call `jwt.verify(token, secret)` of the signing library: it returns
the decoded claims or throws. -/
abbrev JwtVerify := String → Option String → Except String Claims

/-- The method `s.replace(pat, rep)` with a string pattern, on characters: the
first occurrence of `pat` is replaced, the rest is kept. -/
def replaceFirstChars (pat rep : List Char) : List Char → List Char
  | [] => if pat.isEmpty then rep else []
  | c :: cs =>
    if pat.isPrefixOf (c :: cs) then rep ++ (c :: cs).drop pat.length
    else c :: replaceFirstChars pat rep cs

/-- The expression `header.replace('Bearer ', '')`. -/
def stripBearer (header : String) : String :=
  String.mk (replaceFirstChars "Bearer ".toList [] header.toList)

/-- What `authenticate` does: it calls `next()` after setting `req.userId`
and `req.userEmail`, or it sends a response. -/
inductive AuthResult where
  | next (userId userEmail : String)
  | respond (r : Response)
  deriving DecidableEq, Repr

/-- The authentication middleware. The secret passed to `jwt.verify` is
`process.env.JWT_SECRET` as it is. -/
def authenticate (verify : JwtVerify) (env : Env) (req : Request) : AuthResult :=
  match req.authorization.map stripBearer with
  | none => .respond (failure 401 "No token provided. Authentication required.")
  | some token =>
    if token = "" then
      .respond (failure 401 "No token provided. Authentication required.")
    else
      match verify token env.JWT_SECRET with
      | .ok decoded => .next decoded.id decoded.email
      | .error _ => .respond (failure 401 "Invalid token. Please log in again.")

/-- The controller `getCurrentUser`, given the lookup `User.findById`. -/
def getCurrentUser (findById : String → Except String (Option User)) (userId : String) :
    Response :=
  match findById userId with
  | .error _ => failure 500 "Error fetching user data."
  | .ok none => failure 404 "User not found."
  | .ok (some user) => ⟨200, [("success", .leaf (.bool true)), ("user", userPayload user)]⟩

/-- The route `GET /me`: `authenticate`, then `getCurrentUser`. The second
component tells whether the controller ran. -/
def meRoute (verify : JwtVerify) (findById : String → Except String (Option User))
    (env : Env) (req : Request) : Response × Bool :=
  match authenticate verify env req with
  | .respond r => (r, false)
  | .next userId _ => (getCurrentUser findById userId, true)

/-- Modelled from the spec: the verification half of the token primitive
(`verify(token) -> accountIdentity | fails(Invalid)`) for the tokens of
`memDeps`, which join id, email and secret. A missing or empty secret is
refused; otherwise the token must be the signature of one of the issued
claims under that secret. -/
def memVerify (issued : List Claims) : JwtVerify := fun token secret =>
  match secret with
  | none => .error "secret or public key must be provided"
  | some s =>
    if s = "" then .error "secret or public key must be provided"
    else
      match issued.find? (fun c => c.id ++ ":" ++ c.email ++ ":" ++ s == token) with
      | some c => .ok c
      | none => .error "invalid signature"

/-- A request to `GET /me` carrying the given `Authorization` header. -/
def meRequest (authorization : Option String) : Request :=
  ⟨some "10.0.0.1", none, "/me", "GET", some "curl/8.0", authorization,
    ⟨.undefined, .undefined, .undefined, .undefined, .undefined, .undefined⟩⟩

/-! ## `middleware/logging.js` and `server.js` -/

/-- The record the wrapped `res.json` writes for a payload. -/
def loggerRecord (req : Request) (data : Response) : LogRecord where
  ipAddress := clientAddress req
  endpoint := req.path
  method := req.method
  userAgent := req.userAgent
  email := declaredEmail req
  status := if data.field "success" = some (.leaf (.bool true)) then "success" else "failure"
  reason := if data.field "success" = some (.leaf (.bool true)) then none else data.message

/-- The body of the `res.json` installed by `requestLogger`, run when a
handler responds: it reads `req.path` at that moment, the same value the
handler sees, and writes a record only for the two paths it names. In a
handler of the router mounted at `/api/auth`, Express gives `req.path` without
the mount point: `/login` or `/signup`. -/
def requestLogger (req : Request) (data : Response) : List Effect :=
  if req.path = "/api/auth/login" ∨ req.path = "/api/auth/signup" then
    [.logCreate (loggerRecord req data)]
  else
    []

/-- A route run below `app.use(requestLogger)`: a reply sent with `res.json`
goes through the wrapped function, the limiter text does not. -/
def logged (route : Deps → HitStore → Request → RouteRun) (d : Deps) (store : HitStore)
    (req : Request) : RouteRun :=
  let r := route d store req
  match r.reply with
  | .json data => ⟨r.store, r.trace ++ requestLogger req data, r.reply⟩
  | .text _ _ => r

/-- The attempt records written during a run, in order. -/
def attemptRecords (t : List Effect) : List LogRecord :=
  t.filterMap (fun e => match e with
    | .logCreate r => some r
    | _ => none)

/-! ## `components/SignupForm.js` -/

/-- The result `{ isValid, message }` of a field validation; `isValid: null`
is `none`. -/
structure Validation where
  isValid : Option Bool
  message : String
  deriving DecidableEq, Repr

/-- Membership in the character class `[a-zA-Z0-9_]`. -/
def isWordChar (c : Char) : Bool :=
  (97 ≤ c.toNat && c.toNat ≤ 122) || (65 ≤ c.toNat && c.toNat ≤ 90) ||
    (48 ≤ c.toNat && c.toNat ≤ 57) || c.toNat == 95

/-- The test `/^[a-zA-Z0-9_]+$/.test(s)`: one or more characters, all of the
class, up to the end of the input. -/
def wordRegexTest (s : String) : Bool := !s.toList.isEmpty && s.toList.all isWordChar

/-- The function `validateUsername` of the signup form. -/
def validateUsername (username : String) : Validation :=
  if username = "" then
    ⟨none, ""⟩
  else
    let isValidLength := decide (utf16Length username ≥ 3) && decide (utf16Length username ≤ 20)
    let isValidChars := wordRegexTest username
    let isValid := isValidLength && isValidChars
    let message :=
      if !isValidLength then "⚠️ Username must be 3-20 characters"
      else if !isValidChars then "⚠️ Only letters, numbers, and underscores allowed"
      else "✓ Username looks good"
    ⟨some isValid, message⟩

/-! ## Thrown errors and their messages -/

/-- Forget the message of a thrown error. -/
def eraseMessage {α : Type} : Except String α → Except String α
  | .error _ => .error ""
  | .ok a => .ok a

/-- The collaborators with the message of every thrown error forgotten: two
sets of collaborators with the same erasure differ only in the text of the
errors they throw. -/
def Deps.eraseMessages (d : Deps) : Deps where
  env := d.env
  now := d.now
  findOne := fun q => eraseMessage (d.findOne q)
  create := fun e n p => eraseMessage (d.create e n p)
  save := fun u => eraseMessage (d.save u)
  matchPassword := fun u p => eraseMessage (d.matchPassword u p)
  axiosPost := fun url secret r => eraseMessage (d.axiosPost url secret r)
  jwtSign := fun c secret e => eraseMessage (d.jwtSign c secret e)
  logCreate := fun r => eraseMessage (d.logCreate r)

/-- The in-memory collaborators over an empty store whose `User.create`
throws with the given message. -/
def createThrows (msg : String) : Deps :=
  { memDeps [] 1000 with create := fun _ _ _ => .error msg }

/-- The in-memory collaborators whose store lookup throws with the given
message. -/
def lookupThrows (msg : String) : Deps :=
  { memDeps [] 1000 with findOne := fun _ => .error msg }

/-- The in-memory collaborators holding `alice` with three failed logins,
whose CAPTCHA verification call throws. -/
def captchaDown : Deps :=
  { memDeps [alice 3] 1000 with axiosPost := fun _ _ _ => .error "timeout of 5000ms exceeded" }

/-- The in-memory collaborators holding `alice` with three failed logins,
whose CAPTCHA verification service replies `success: true` without a score. -/
def captchaNoScore : Deps :=
  { memDeps [alice 3] 1000 with axiosPost := fun _ _ _ => .ok ⟨.bool true, .absent⟩ }

/-- The login of `alice` with her password and a CAPTCHA response. -/
def aliceWithCaptcha : Body :=
  loginBody (.str "alice@example.com") (.str "secret1") (.str "response-token")

/-- The in-memory collaborators whose attempt log refuses every write. -/
def logDown : Deps :=
  { memDeps [alice 0] 1000 with logCreate := fun _ => .error "request_logs unavailable" }

/-- The score is a number and that number is below 0.5. -/
def Score.isNumberBelowHalf : Score → Bool
  | .num m e => decide (2 * m < 10 ^ e)
  | _ => false

/-- The score field is a number or is absent, as in the replies of the
verification service (`{ success: bool, score: number }`, the score being
optional). -/
def Score.isNumberOrAbsent : Score → Bool
  | .absent => true
  | .num _ _ => true
  | _ => false

/-! ## Lemmas on the login controller -/

theorem loginVerify_trace_false (d : Deps) (u : User) (pw : JsVal)
    (h : d.matchPassword u pw = .ok false) :
    (loginVerify d u pw).trace = [.matchPassword u pw, .save (u.afterFailure d.now)] := by
  unfold loginVerify
  rw [h]
  simp only [User.afterFailure]
  split <;> rfl

theorem loginVerify_saved_true (d : Deps) (u : User) (pw : JsVal)
    (h : d.matchPassword u pw = .ok true) :
    savedAccounts (loginVerify d u pw).trace = [u.afterSuccess d.now] := by
  unfold loginVerify
  rw [h]
  simp only [User.afterSuccess, generateToken]
  split
  · rfl
  · split <;> rfl

theorem loginVerify_matchPassword_mem (d : Deps) (user u : User) (p pw : JsVal)
    (h : Effect.matchPassword u pw ∈ (loginVerify d user p).trace) :
    u = user ∧ pw = p := by
  unfold loginVerify at h
  simp only [generateToken] at h
  repeat' split at h
  all_goals simp at h
  all_goals exact h

theorem login_missing_field (d : Deps) (body : Body)
    (h : body.email.truthy = false ∨ body.password.truthy = false) :
    login d body = ⟨[], failure 400 "Please provide email and password."⟩ := by
  unfold login
  rcases h with h | h <;> simp [h]

theorem login_lookup_throws (d : Deps) (body : Body) (msg : String)
    (he : body.email.truthy = true) (hp : body.password.truthy = true)
    (hf : d.findOne (.byEmail body.email) = .error msg) :
    login d body = ⟨[.findOne (.byEmail body.email)], loginCatch⟩ := by
  unfold login
  simp [he, hp, hf]

theorem login_no_account (d : Deps) (body : Body)
    (he : body.email.truthy = true) (hp : body.password.truthy = true)
    (hf : d.findOne (.byEmail body.email) = .ok none) :
    login d body =
      ⟨[.findOne (.byEmail body.email)], failure 401 "Invalid email or password."⟩ := by
  unfold login
  simp [he, hp, hf]

theorem login_below_threshold (d : Deps) (body : Body) (u : User)
    (he : body.email.truthy = true) (hp : body.password.truthy = true)
    (hf : d.findOne (.byEmail body.email) = .ok (some u))
    (hn : u.failedLoginAttempts < CAPTCHA_REQUIRED_AFTER_ATTEMPTS) :
    login d body = (loginVerify d u body.password).after [.findOne (.byEmail body.email)] := by
  unfold login
  simp [he, hp, hf, Nat.not_le.mpr hn]

theorem login_captcha_missing (d : Deps) (body : Body) (u : User)
    (he : body.email.truthy = true) (hp : body.password.truthy = true)
    (hf : d.findOne (.byEmail body.email) = .ok (some u))
    (hn : u.failedLoginAttempts ≥ CAPTCHA_REQUIRED_AFTER_ATTEMPTS)
    (ht : body.recaptchaToken.truthy = false) :
    login d body =
      ⟨[.findOne (.byEmail body.email)],
        ⟨403, [("success", .leaf (.bool false)),
               ("requiresCaptcha", .leaf (.bool true)),
               ("message",
                 .leaf (.str "Too many failed attempts. CAPTCHA verification required."))]⟩⟩ := by
  unfold login
  simp [he, hp, hf, hn, ht]

theorem login_captcha_throws (d : Deps) (body : Body) (u : User) (msg : String)
    (he : body.email.truthy = true) (hp : body.password.truthy = true)
    (hf : d.findOne (.byEmail body.email) = .ok (some u))
    (hn : u.failedLoginAttempts ≥ CAPTCHA_REQUIRED_AFTER_ATTEMPTS)
    (ht : body.recaptchaToken.truthy = true)
    (hc : captchaReply d body = .error msg) :
    login d body =
      ⟨[.findOne (.byEmail body.email), captchaCall d body],
        failure 500 "Error verifying CAPTCHA. Please try again."⟩ := by
  unfold captchaReply at hc
  unfold login captchaCall
  simp [he, hp, hf, hn, ht, hc]

theorem login_captcha_rejected (d : Deps) (body : Body) (u : User) (data : CaptchaData)
    (he : body.email.truthy = true) (hp : body.password.truthy = true)
    (hf : d.findOne (.byEmail body.email) = .ok (some u))
    (hn : u.failedLoginAttempts ≥ CAPTCHA_REQUIRED_AFTER_ATTEMPTS)
    (ht : body.recaptchaToken.truthy = true)
    (hc : captchaReply d body = .ok data)
    (hr : data.success.truthy = false ∨ data.score.belowHalf = true) :
    login d body =
      ⟨[.findOne (.byEmail body.email), captchaCall d body],
        failure 403 "CAPTCHA verification failed. Please try again."⟩ := by
  unfold captchaReply at hc
  unfold login captchaCall
  rcases hr with hr | hr <;> simp [he, hp, hf, hn, ht, hc, hr]

theorem login_captcha_passed (d : Deps) (body : Body) (u : User) (data : CaptchaData)
    (he : body.email.truthy = true) (hp : body.password.truthy = true)
    (hf : d.findOne (.byEmail body.email) = .ok (some u))
    (hn : u.failedLoginAttempts ≥ CAPTCHA_REQUIRED_AFTER_ATTEMPTS)
    (ht : body.recaptchaToken.truthy = true)
    (hc : captchaReply d body = .ok data)
    (hs : data.success.truthy = true) (hb : data.score.belowHalf = false) :
    login d body =
      (loginVerify d u body.password).after
        [.findOne (.byEmail body.email), captchaCall d body] := by
  unfold captchaReply at hc
  unfold login captchaCall
  simp [he, hp, hf, hn, ht, hc, hs, hb]

/-- A login run that contains a password verification of `u` is the
verification step run after the lookup of `u` and, possibly, the CAPTCHA call. -/
theorem login_reaches_verify (d : Deps) (body : Body) (u : User) (pw : JsVal)
    (h : Effect.matchPassword u pw ∈ (login d body).trace) :
    pw = body.password ∧
    d.findOne (.byEmail body.email) = .ok (some u) ∧
    ∃ pre : List Effect, (∀ e ∈ pre, e.isFindOne = true ∨ e.isCaptcha = true) ∧
      login d body = (loginVerify d u body.password).after pre := by
  by_cases he : body.email.truthy = true
  swap
  · rw [login_missing_field d body (Or.inl (by simpa using he))] at h
    simp at h
  by_cases hp : body.password.truthy = true
  swap
  · rw [login_missing_field d body (Or.inr (by simpa using hp))] at h
    simp at h
  cases hf : d.findOne (.byEmail body.email) with
  | error msg =>
    rw [login_lookup_throws d body msg he hp hf] at h
    simp at h
  | ok found =>
    cases found with
    | none =>
      rw [login_no_account d body he hp hf] at h
      simp at h
    | some user =>
      by_cases hn : user.failedLoginAttempts ≥ CAPTCHA_REQUIRED_AFTER_ATTEMPTS
      · by_cases ht : body.recaptchaToken.truthy = true
        swap
        · rw [login_captcha_missing d body user he hp hf hn (by simpa using ht)] at h
          simp at h
        cases hc : captchaReply d body with
        | error msg =>
          rw [login_captcha_throws d body user msg he hp hf hn ht hc] at h
          simp [captchaCall] at h
        | ok data =>
          by_cases hr : data.success.truthy = false ∨ data.score.belowHalf = true
          · rw [login_captcha_rejected d body user data he hp hf hn ht hc hr] at h
            simp [captchaCall] at h
          · have hs : data.success.truthy = true := by
              cases hx : data.success.truthy <;> simp_all
            have hb : data.score.belowHalf = false := by
              cases hx : data.score.belowHalf <;> simp_all
            have heq := login_captcha_passed d body user data he hp hf hn ht hc hs hb
            rw [heq] at h ⊢
            simp only [Run.after, captchaCall, List.mem_append, List.mem_cons,
              List.mem_singleton, reduceCtorEq, List.not_mem_nil, or_false, false_or] at h
            obtain ⟨rfl, rfl⟩ := loginVerify_matchPassword_mem d user u _ pw h
            refine ⟨rfl, rfl, _, ?_, rfl⟩
            intro e hmem
            simp only [List.mem_cons, List.mem_singleton, List.not_mem_nil, or_false] at hmem
            rcases hmem with rfl | rfl
            · exact Or.inl rfl
            · exact Or.inr rfl
      · have heq := login_below_threshold d body user he hp hf (Nat.not_le.mp hn)
        rw [heq] at h ⊢
        simp only [Run.after, List.mem_append, List.mem_cons,
          List.mem_singleton, reduceCtorEq, List.not_mem_nil, or_false, false_or] at h
        obtain ⟨rfl, rfl⟩ := loginVerify_matchPassword_mem d user u _ pw h
        refine ⟨rfl, rfl, _, ?_, rfl⟩
        intro e hmem
        simp only [List.mem_cons, List.mem_singleton, List.not_mem_nil, or_false] at hmem
        subst hmem
        exact Or.inl rfl

theorem savedAccounts_after (pre : List Effect) (r : Run)
    (hpre : ∀ e ∈ pre, e.isFindOne = true ∨ e.isCaptcha = true) :
    savedAccounts (r.after pre).trace = savedAccounts r.trace := by
  unfold Run.after savedAccounts
  simp only [List.filterMap_append]
  have : pre.filterMap (fun e => match e with
      | .save u => some u
      | _ => none) = [] := by
    rw [List.filterMap_eq_nil_iff]
    intro e he
    rcases hpre e he with h | h <;> cases e <;> simp_all [Effect.isFindOne, Effect.isCaptcha]
  rw [this, List.nil_append]

/-! ## Properties of the pipeline -/

theorem jsAddOne_of_lt (n : Nat) (h : n < 2 ^ 53) : jsAddOne n = n + 1 := by
  unfold jsAddOne
  rw [if_pos h]

/-- The claim C1 as stated fails at `n = 2 ^ 53`: `alice` with that many
failed logins passes the CAPTCHA gate and submits a wrong password; the run
verifies the password and saves the account with the counter still at
`2 ^ 53`, not at `2 ^ 53 + 1`. -/
theorem login_counter_at_two_pow_53_counterexample :
    Effect.matchPassword (alice (2 ^ 53)) (.str "wrong")
      ∈ (login (memDeps [alice (2 ^ 53)] 1000)
          (loginBody (.str "alice@example.com") (.str "wrong") (.str "human"))).trace ∧
    (memDeps [alice (2 ^ 53)] 1000).matchPassword (alice (2 ^ 53)) (.str "wrong")
      = .ok false ∧
    (savedAccounts (login (memDeps [alice (2 ^ 53)] 1000)
      (loginBody (.str "alice@example.com") (.str "wrong") (.str "human"))).trace).map
        (fun u => u.failedLoginAttempts) = [2 ^ 53] ∧
    ¬ (∃ saved : User,
        savedAccounts (login (memDeps [alice (2 ^ 53)] 1000)
          (loginBody (.str "alice@example.com") (.str "wrong") (.str "human"))).trace
          = [saved] ∧
        saved.failedLoginAttempts = 2 ^ 53 + 1) := by
  have hsaved : savedAccounts (login (memDeps [alice (2 ^ 53)] 1000)
      (loginBody (.str "alice@example.com") (.str "wrong") (.str "human"))).trace
      = [(alice (2 ^ 53)).afterFailure 1000] := by
    decide
  refine ⟨by decide, rfl, ?_, ?_⟩
  · rw [hsaved]
    decide
  · rintro ⟨saved, hs, hc⟩
    rw [hsaved] at hs
    injection hs with hs _
    subst hs
    revert hc
    decide

/-- C1, amended. A login attempt that reaches password verification on an
account whose `failedLoginAttempts` is `n` saves the account exactly once: with
`failedLoginAttempts = n + 1` (and identity fields untouched) when the
verification fails and `n` is below `2 ^ 53`, with `failedLoginAttempts = 0`
when it succeeds. -/
theorem login_records_outcome (d : Deps) (body : Body) (u : User) (pw : JsVal) (n : Nat)
    (verified : Bool)
    (hn : u.failedLoginAttempts = n)
    (hsafe : verified = false → n < 2 ^ 53)
    (hreach : Effect.matchPassword u pw ∈ (login d body).trace)
    (hver : d.matchPassword u pw = .ok verified) :
    ∃ saved : User,
      savedAccounts (login d body).trace = [saved] ∧
      saved._id = u._id ∧ saved.email = u.email ∧ saved.username = u.username ∧
      saved.password = u.password ∧
      saved.failedLoginAttempts = (if verified then 0 else n + 1) := by
  obtain ⟨rfl, -, pre, hpre, heq⟩ := login_reaches_verify d body u pw hreach
  rw [heq, savedAccounts_after pre _ hpre]
  cases verified with
  | false =>
    refine ⟨u.afterFailure d.now, ?_, rfl, rfl, rfl, rfl, ?_⟩
    · rw [loginVerify_trace_false d u _ hver]
      rfl
    · simp [User.afterFailure, hn, jsAddOne_of_lt n (hsafe rfl)]
  | true =>
    exact ⟨u.afterSuccess d.now, loginVerify_saved_true d u _ hver, rfl, rfl, rfl, rfl, rfl⟩

/-- Witness of C1, amended: `alice` with two failed logins submits a wrong
password. -/
theorem login_records_outcome_witness :
    ∃ saved : User,
      savedAccounts (login (memDeps [alice 2] 1000)
        (loginBody (.str "alice@example.com") (.str "wrong") .undefined)).trace = [saved] ∧
      saved._id = (alice 2)._id ∧ saved.email = (alice 2).email ∧
      saved.username = (alice 2).username ∧ saved.password = (alice 2).password ∧
      saved.failedLoginAttempts = (if false then 0 else 2 + 1) :=
  login_records_outcome (memDeps [alice 2] 1000)
    (loginBody (.str "alice@example.com") (.str "wrong") .undefined)
    (alice 2) (.str "wrong") 2 false rfl (fun _ => by decide) (by decide) rfl

/-- C2. For an existing account with `failedLoginAttempts >= 3`, a login
request with email and password and a missing or empty (falsy)
`recaptchaToken` is answered 403 with `requiresCaptcha: true`; the run
contains no password verification and no write of the store, so the counter
is left as it was. -/
theorem login_requires_captcha (d : Deps) (body : Body) (u : User)
    (he : body.email.truthy = true) (hp : body.password.truthy = true)
    (hf : d.findOne (.byEmail body.email) = .ok (some u))
    (hn : u.failedLoginAttempts ≥ 3)
    (ht : body.recaptchaToken.truthy = false) :
    (login d body).res.status = 403 ∧
    (login d body).res.field "requiresCaptcha" = some (.leaf (.bool true)) ∧
    (∀ e ∈ (login d body).trace, e.isMatchPassword = false) ∧
    (∀ e ∈ (login d body).trace, e.isWrite = false) ∧
    savedAccounts (login d body).trace = [] := by
  rw [login_captcha_missing d body u he hp hf hn ht]
  refine ⟨rfl, rfl, ?_, ?_, rfl⟩ <;>
  · intro e hmem
    simp only [List.mem_singleton] at hmem
    subst hmem
    rfl

/-- Witness of C2: `alice` with three failed logins sends no CAPTCHA response. -/
theorem login_requires_captcha_witness :
    (login (memDeps [alice 3] 1000)
      (loginBody (.str "alice@example.com") (.str "secret1") .undefined)).res.status = 403 ∧
    (login (memDeps [alice 3] 1000)
      (loginBody (.str "alice@example.com") (.str "secret1") .undefined)).res.field
        "requiresCaptcha" = some (.leaf (.bool true)) ∧
    (∀ e ∈ (login (memDeps [alice 3] 1000)
      (loginBody (.str "alice@example.com") (.str "secret1") .undefined)).trace,
        e.isMatchPassword = false) ∧
    (∀ e ∈ (login (memDeps [alice 3] 1000)
      (loginBody (.str "alice@example.com") (.str "secret1") .undefined)).trace,
        e.isWrite = false) ∧
    savedAccounts (login (memDeps [alice 3] 1000)
      (loginBody (.str "alice@example.com") (.str "secret1") .undefined)).trace = [] :=
  login_requires_captcha (memDeps [alice 3] 1000)
    (loginBody (.str "alice@example.com") (.str "secret1") .undefined) (alice 3)
    rfl rfl rfl (by decide) rfl

/-- C3. For an existing account with `failedLoginAttempts >= 3` and a login
attempt carrying a CAPTCHA response: when the verification call throws, or
replies with a falsy `success`, or replies with a score below 0.5, the attempt
is rejected (500 when the call throws, 403 otherwise), no token is in the
payload, and the run contains no password verification, no token signing and
no write of the store. -/
theorem login_captcha_gate_rejects (d : Deps) (body : Body) (u : User)
    (he : body.email.truthy = true) (hp : body.password.truthy = true)
    (hf : d.findOne (.byEmail body.email) = .ok (some u))
    (hn : u.failedLoginAttempts ≥ 3)
    (ht : body.recaptchaToken.truthy = true)
    (hfail : (∃ msg, captchaReply d body = .error msg) ∨
      (∃ data, captchaReply d body = .ok data ∧
        (data.success.truthy = false ∨ data.score.belowHalf = true))) :
    ((login d body).res.status = 403 ∨ (login d body).res.status = 500) ∧
    (login d body).res.field "success" = some (.leaf (.bool false)) ∧
    (login d body).res.field "token" = none ∧
    (∀ e ∈ (login d body).trace, e.isMatchPassword = false) ∧
    (∀ e ∈ (login d body).trace, e.isSign = false) ∧
    (∀ e ∈ (login d body).trace, e.isWrite = false) ∧
    savedAccounts (login d body).trace = [] := by
  have htrace : ∀ e ∈ [Effect.findOne (.byEmail body.email), captchaCall d body],
      e.isMatchPassword = false ∧ e.isSign = false ∧ e.isWrite = false := by
    intro e hmem
    simp only [List.mem_cons, List.mem_singleton, List.not_mem_nil, or_false] at hmem
    rcases hmem with rfl | rfl
    · exact ⟨rfl, rfl, rfl⟩
    · exact ⟨rfl, rfl, rfl⟩
  rcases hfail with ⟨msg, hc⟩ | ⟨data, hc, hr⟩
  · rw [login_captcha_throws d body u msg he hp hf hn ht hc]
    exact ⟨Or.inr rfl, rfl, rfl, fun e h => (htrace e h).1,
      fun e h => (htrace e h).2.1, fun e h => (htrace e h).2.2, rfl⟩
  · rw [login_captcha_rejected d body u data he hp hf hn ht hc hr]
    exact ⟨Or.inl rfl, rfl, rfl, fun e h => (htrace e h).1,
      fun e h => (htrace e h).2.1, fun e h => (htrace e h).2.2, rfl⟩

/-- Witness of C3: `alice` with three failed logins sends a CAPTCHA response
the service does not accept. -/
theorem login_captcha_gate_rejects_witness :
    ((login (memDeps [alice 3] 1000)
        (loginBody (.str "alice@example.com") (.str "secret1") (.str "bot"))).res.status = 403 ∨
      (login (memDeps [alice 3] 1000)
        (loginBody (.str "alice@example.com") (.str "secret1") (.str "bot"))).res.status = 500) ∧
    (login (memDeps [alice 3] 1000)
      (loginBody (.str "alice@example.com") (.str "secret1") (.str "bot"))).res.field "success"
        = some (.leaf (.bool false)) ∧
    (login (memDeps [alice 3] 1000)
      (loginBody (.str "alice@example.com") (.str "secret1") (.str "bot"))).res.field "token"
        = none ∧
    (∀ e ∈ (login (memDeps [alice 3] 1000)
      (loginBody (.str "alice@example.com") (.str "secret1") (.str "bot"))).trace,
        e.isMatchPassword = false) ∧
    (∀ e ∈ (login (memDeps [alice 3] 1000)
      (loginBody (.str "alice@example.com") (.str "secret1") (.str "bot"))).trace,
        e.isSign = false) ∧
    (∀ e ∈ (login (memDeps [alice 3] 1000)
      (loginBody (.str "alice@example.com") (.str "secret1") (.str "bot"))).trace,
        e.isWrite = false) ∧
    savedAccounts (login (memDeps [alice 3] 1000)
      (loginBody (.str "alice@example.com") (.str "secret1") (.str "bot"))).trace = [] :=
  login_captcha_gate_rejects (memDeps [alice 3] 1000)
    (loginBody (.str "alice@example.com") (.str "secret1") (.str "bot")) (alice 3)
    rfl rfl rfl (by decide) rfl (Or.inr ⟨⟨.bool false, .absent⟩, rfl, Or.inl rfl⟩)

theorem honeypot_filled (d : Deps) (req : Request)
    (h : req.body.website.truthy = true) :
    honeypotMiddleware d req =
      ⟨[.logCreate (honeypotRecord req)],
        some (failure 400 "Invalid request. Please try again.")⟩ := by
  unfold honeypotMiddleware
  have : (req.body.website.or (.str "")).truthy = true := by simp [JsVal.or, h]
  simp only [this, if_true]
  split <;> rfl

theorem chain_honeypot_filled (o : RateLimitOptions) (controller : Deps → Body → Run)
    (d : Deps) (store : HitStore) (req : Request)
    (h : req.body.website.truthy = true) :
    ∀ e ∈ (chain o controller d store req).trace, e.isStore = false := by
  unfold chain
  simp only [honeypot_filled d req h]
  split
  · intro e hmem
    simp only [List.mem_singleton] at hmem
    subst hmem
    rfl
  · intro e hmem
    simp at hmem

/-- C4. For every login or signup request whose honeypot field `website` is
a non-empty string, the honeypot middleware writes its record and answers 400
with the message "Invalid request. Please try again.", which does not mention
the honeypot; it does not call `next()`, and neither route chain makes any
call to the credential store, whatever the store would have answered for the
declared email. -/
theorem honeypot_rejects_before_store (d : Deps) (store : HitStore) (req : Request)
    (s : String) (hw : req.body.website = .str s) (hs : s ≠ "") :
    (honeypotMiddleware d req).res = some (failure 400 "Invalid request. Please try again.") ∧
    (failure 400 "Invalid request. Please try again.").message
      = some "Invalid request. Please try again." ∧
    mentions "honeypot" "Invalid request. Please try again." = false ∧
    (honeypotMiddleware d req).res ≠ none ∧
    (∀ e ∈ (loginRoute d store req).trace, e.isStore = false) ∧
    (∀ e ∈ (signupRoute d store req).trace, e.isStore = false) := by
  have ht : req.body.website.truthy = true := by
    rw [hw]
    simpa [JsVal.truthy] using hs
  refine ⟨?_, rfl, by decide, ?_, ?_, ?_⟩
  · rw [honeypot_filled d req ht]
  · rw [honeypot_filled d req ht]
    simp
  · exact chain_honeypot_filled loginLimiter login d store req ht
  · exact chain_honeypot_filled signupLimiter signup d store req ht

/-- Witness of C4: a login request for the existing account `alice` with the
honeypot field filled. -/
theorem honeypot_rejects_before_store_witness :
    (honeypotMiddleware (memDeps [alice 0] 1000)
      (requestFrom "/login" ⟨.str "alice@example.com", .undefined, .str "secret1", .undefined,
        .undefined, .str "http://spam.example"⟩)).res
      = some (failure 400 "Invalid request. Please try again.") ∧
    (failure 400 "Invalid request. Please try again.").message
      = some "Invalid request. Please try again." ∧
    mentions "honeypot" "Invalid request. Please try again." = false ∧
    (honeypotMiddleware (memDeps [alice 0] 1000)
      (requestFrom "/login" ⟨.str "alice@example.com", .undefined, .str "secret1", .undefined,
        .undefined, .str "http://spam.example"⟩)).res ≠ none ∧
    (∀ e ∈ (loginRoute (memDeps [alice 0] 1000) HitStore.empty
      (requestFrom "/login" ⟨.str "alice@example.com", .undefined, .str "secret1", .undefined,
        .undefined, .str "http://spam.example"⟩)).trace, e.isStore = false) ∧
    (∀ e ∈ (signupRoute (memDeps [alice 0] 1000) HitStore.empty
      (requestFrom "/login" ⟨.str "alice@example.com", .undefined, .str "secret1", .undefined,
        .undefined, .str "http://spam.example"⟩)).trace, e.isStore = false) :=
  honeypot_rejects_before_store (memDeps [alice 0] 1000) HitStore.empty
    (requestFrom "/login" ⟨.str "alice@example.com", .undefined, .str "secret1", .undefined,
      .undefined, .str "http://spam.example"⟩) "http://spam.example" rfl (by decide)

/-! ### The login limiter -/

theorem rateLimit_opens (o : RateLimitOptions) (store : HitStore) (now : Nat)
    (key : Option String) (h : ∀ w, store key = some w → w.resetTime ≤ now) :
    (rateLimit o store now key).1 key = some ⟨1, now + o.windowMs⟩ ∧
    (rateLimit o store now key).2 = decide (1 ≤ o.max) := by
  unfold rateLimit
  cases hs : store key with
  | none => simp
  | some w =>
    have := h w hs
    simp [Nat.not_lt.mpr this]

theorem rateLimit_counts (o : RateLimitOptions) (store : HitStore) (now : Nat)
    (key : Option String) (w : Window) (hs : store key = some w) (h : now < w.resetTime) :
    (rateLimit o store now key).1 key = some ⟨w.totalHits + 1, w.resetTime⟩ ∧
    (rateLimit o store now key).2 = decide (w.totalHits + 1 ≤ o.max) := by
  unfold rateLimit
  simp [hs, h]

/-- A hit of one key leaves the counters of every other key as they were. -/
theorem rateLimit_other_key (o : RateLimitOptions) (store : HitStore) (now : Nat)
    (key other : Option String) (h : other ≠ key) :
    (rateLimit o store now key).1 other = store other := by
  unfold rateLimit
  simp [h]

theorem chain_rate_limited (o : RateLimitOptions) (controller : Deps → Body → Run)
    (d : Deps) (store : HitStore) (req : Request)
    (h : (rateLimit o store d.now (keyGenerator req)).2 = false) :
    (chain o controller d store req).reply = .text 429 o.message ∧
    (chain o controller d store req).trace = [] := by
  unfold chain
  simp [h]

theorem chain_passed_on (o : RateLimitOptions) (controller : Deps → Body → Run)
    (d : Deps) (store : HitStore) (req : Request)
    (h : (rateLimit o store d.now (keyGenerator req)).2 = true) :
    ∃ r, (chain o controller d store req).reply = .json r := by
  unfold chain
  simp only [h, if_true]
  split
  · exact ⟨_, rfl⟩
  · exact ⟨_, rfl⟩

theorem keyGenerator_of_ip (req : Request) (a : String) (h : req.ip = some a) (ha : a ≠ "") :
    keyGenerator req = some a := by
  unfold keyGenerator clientAddress
  rw [h]
  simp [ha]

/-- A chain is the limiter decision followed, when the request is passed on,
by the handlers. -/
theorem chain_run (o : RateLimitOptions) (controller : Deps → Body → Run) (d : Deps)
    (store : HitStore) (req : Request) :
    (chain o controller d store req).store = (rateLimit o store d.now (keyGenerator req)).1 ∧
    ((rateLimit o store d.now (keyGenerator req)).2 = true →
      ((chain o controller d store req).trace, (chain o controller d store req).reply)
        = passOn controller d req) ∧
    ((rateLimit o store d.now (keyGenerator req)).2 = false →
      ((chain o controller d store req).trace, (chain o controller d store req).reply)
        = ([], .text 429 o.message)) := by
  unfold chain passOn
  by_cases hl : (rateLimit o store d.now (keyGenerator req)).2 = true
  · cases hh : (honeypotMiddleware d req).res with
    | none => simp [hl, hh]
    | some r => simp [hl, hh]
  · simp [hl]

/-- The first request of an address on the login route opens its window and
is passed on. -/
theorem loginRoute_opens (d : Deps) (store : HitStore) (req : Request) (a : String)
    (hip : req.ip = some a) (ha : a ≠ "")
    (hfresh : ∀ w, store (some a) = some w → w.resetTime ≤ d.now) :
    (loginRoute d store req).store (some a) = some ⟨1, d.now + 10 * 60 * 1000⟩ ∧
    ((loginRoute d store req).trace, (loginRoute d store req).reply) = passOn login d req ∧
    (∀ k, k ≠ some a → (loginRoute d store req).store k = store k) := by
  obtain ⟨hs, hpass, -⟩ := chain_run loginLimiter login d store req
  rw [keyGenerator_of_ip req a hip ha] at hs hpass
  obtain ⟨h1, h2⟩ := rateLimit_opens loginLimiter store d.now (some a) hfresh
  refine ⟨?_, hpass (by rw [h2]; decide), ?_⟩
  · show (chain loginLimiter login d store req).store (some a) = _
    rw [hs, h1]
    rfl
  · intro k hk
    show (chain loginLimiter login d store req).store k = _
    rw [hs, rateLimit_other_key loginLimiter store d.now (some a) k hk]

/-- A later request of an address inside its window counts into the window:
it is passed on up to the fifth hit and answered 429, with no handler run,
from the sixth. -/
theorem loginRoute_counts (d : Deps) (store : HitStore) (req : Request) (a : String)
    (n r : Nat) (hip : req.ip = some a) (ha : a ≠ "")
    (hw : store (some a) = some ⟨n, r⟩) (hin : d.now < r) :
    (loginRoute d store req).store (some a) = some ⟨n + 1, r⟩ ∧
    (n + 1 ≤ 5 →
      ((loginRoute d store req).trace, (loginRoute d store req).reply) = passOn login d req) ∧
    (5 < n + 1 →
      ((loginRoute d store req).trace, (loginRoute d store req).reply)
        = ([], .text 429 "Too many login attempts from this IP, please try again later.")) ∧
    (∀ k, k ≠ some a → (loginRoute d store req).store k = store k) := by
  obtain ⟨hs, hpass, hrej⟩ := chain_run loginLimiter login d store req
  rw [keyGenerator_of_ip req a hip ha] at hs hpass hrej
  obtain ⟨h1, h2⟩ := rateLimit_counts loginLimiter store d.now (some a) ⟨n, r⟩ hw hin
  have hmax : loginLimiter.max = 5 := rfl
  rw [hmax] at h2
  simp only at h1 h2
  refine ⟨?_, ?_, ?_, ?_⟩
  · show (chain loginLimiter login d store req).store (some a) = _
    rw [hs, h1]
  · intro hle
    exact hpass (by rw [h2]; exact decide_eq_true hle)
  · intro hgt
    exact hrej (by rw [h2]; exact decide_eq_false (Nat.not_le.mpr hgt))
  · intro k hk
    show (chain loginLimiter login d store req).store k = _
    rw [hs, rateLimit_other_key loginLimiter store d.now (some a) k hk]

/-- C5. The login limiter has a window of 10 minutes and a maximum of 5, and
is keyed by the source address. The login route serves eight requests in
turn, each run starting from the counters the previous run left: five from
address `a`, the first of which opens a window, one from another address `b`,
a sixth from `a` inside the window, and one from `a` at or after the end of
the window. The five are passed on to the handlers, the request from `b` is
passed on, the sixth from `a` is answered 429 with the limiter message and
runs no handler, and the request after the window is passed on again. -/
theorem loginLimiter_sixth_rejected (store : HitStore) (a b : String)
    (d : Nat → Deps) (q : Nat → Request)
    (ha : a ≠ "") (hb : b ≠ "") (hab : b ≠ a)
    (hqa : ∀ i, 1 ≤ i → i ≤ 7 → (q i).ip = some a) (hqb : (q 0).ip = some b)
    (hfresh : ∀ w, store (some a) = some w → w.resetTime ≤ (d 1).now)
    (hfreshb : ∀ w, store (some b) = some w → w.resetTime ≤ (d 0).now)
    (h23 : (d 2).now ≤ (d 3).now) (h34 : (d 3).now ≤ (d 4).now)
    (h45 : (d 4).now ≤ (d 5).now) (h56 : (d 5).now ≤ (d 6).now)
    (hin : (d 6).now < (d 1).now + 10 * 60 * 1000)
    (hout : (d 1).now + 10 * 60 * 1000 ≤ (d 7).now) :
    loginLimiter.windowMs = 600000 ∧ loginLimiter.max = 5 ∧
    (routeAll loginRoute store
      [(d 1, q 1), (d 2, q 2), (d 3, q 3), (d 4, q 4), (d 5, q 5), (d 0, q 0), (d 6, q 6), (d 7, q 7)]).map (fun r => (r.trace, r.reply))
      = [passOn login (d 1) (q 1),
         passOn login (d 2) (q 2),
         passOn login (d 3) (q 3),
         passOn login (d 4) (q 4),
         passOn login (d 5) (q 5),
         passOn login (d 0) (q 0),
         ([], .text 429 "Too many login attempts from this IP, please try again later."),
         passOn login (d 7) (q 7)] := by
  refine ⟨rfl, rfl, ?_⟩
  have hba : some b ≠ some a := fun h => hab (Option.some.inj h)
  simp only [routeAll, List.map]
  obtain ⟨s1, p1, o1⟩ := loginRoute_opens (d 1) store (q 1) a (hqa 1 (by omega) (by omega)) ha
    hfresh
  generalize loginRoute (d 1) store (q 1) = R1 at s1 p1 o1 ⊢
  obtain ⟨s2, p2, -, o2⟩ := loginRoute_counts (d 2) R1.store (q 2) a 1 _
    (hqa 2 (by omega) (by omega)) ha s1 (by omega)
  generalize loginRoute (d 2) R1.store (q 2) = R2 at s2 p2 o2 ⊢
  obtain ⟨s3, p3, -, o3⟩ := loginRoute_counts (d 3) R2.store (q 3) a 2 _
    (hqa 3 (by omega) (by omega)) ha s2 (by omega)
  generalize loginRoute (d 3) R2.store (q 3) = R3 at s3 p3 o3 ⊢
  obtain ⟨s4, p4, -, o4⟩ := loginRoute_counts (d 4) R3.store (q 4) a 3 _
    (hqa 4 (by omega) (by omega)) ha s3 (by omega)
  generalize loginRoute (d 4) R3.store (q 4) = R4 at s4 p4 o4 ⊢
  obtain ⟨s5, p5, -, o5⟩ := loginRoute_counts (d 5) R4.store (q 5) a 4 _
    (hqa 5 (by omega) (by omega)) ha s4 (by omega)
  generalize loginRoute (d 5) R4.store (q 5) = R5 at s5 p5 o5 ⊢
  have hbfresh : ∀ w, R5.store (some b) = some w → w.resetTime ≤ (d 0).now := by
    intro w hw
    rw [o5 _ hba, o4 _ hba, o3 _ hba, o2 _ hba, o1 _ hba] at hw
    exact hfreshb w hw
  obtain ⟨-, p0, o0⟩ := loginRoute_opens (d 0) R5.store (q 0) b hqb hb hbfresh
  generalize loginRoute (d 0) R5.store (q 0) = R0 at p0 o0 ⊢
  have s5b : R0.store (some a) = some ⟨5, (d 1).now + 10 * 60 * 1000⟩ := by
    rw [o0 _ (fun h => hba h.symm), s5]
  obtain ⟨s6, -, p6, -⟩ := loginRoute_counts (d 6) R0.store (q 6) a 5 _
    (hqa 6 (by omega) (by omega)) ha s5b hin
  generalize loginRoute (d 6) R0.store (q 6) = R6 at s6 p6 ⊢
  obtain ⟨-, p7, -⟩ := loginRoute_opens (d 7) R6.store (q 7) a (hqa 7 (by omega) (by omega)) ha
    (by intro w hw; rw [s6] at hw; cases hw; exact hout)
  rw [p1, p2 (by omega), p3 (by omega), p4 (by omega), p5 (by omega), p0, p6 (by omega), p7]

/-- Witness of C5: eight logins of `alice`, numbers 1 to 6 from `10.0.0.1` one
second apart, number 0 from `10.0.0.2` in between, number 7 from `10.0.0.1`
after ten minutes, on a limiter that has seen no request. -/
theorem loginLimiter_sixth_rejected_witness :
    loginLimiter.windowMs = 600000 ∧ loginLimiter.max = 5 ∧
    (routeAll loginRoute HitStore.empty
      [(arrivals 1, senders 1), (arrivals 2, senders 2), (arrivals 3, senders 3),
        (arrivals 4, senders 4), (arrivals 5, senders 5), (arrivals 0, senders 0),
        (arrivals 6, senders 6), (arrivals 7, senders 7)]).map (fun r => (r.trace, r.reply))
      = [passOn login (arrivals 1) (senders 1),
         passOn login (arrivals 2) (senders 2),
         passOn login (arrivals 3) (senders 3),
         passOn login (arrivals 4) (senders 4),
         passOn login (arrivals 5) (senders 5),
         passOn login (arrivals 0) (senders 0),
         ([], .text 429 "Too many login attempts from this IP, please try again later."),
         passOn login (arrivals 7) (senders 7)] :=
  loginLimiter_sixth_rejected HitStore.empty "10.0.0.1" "10.0.0.2" arrivals senders
    (by decide) (by decide) (by decide)
    (by
      intro i h1 h7
      have : i = 1 ∨ i = 2 ∨ i = 3 ∨ i = 4 ∨ i = 5 ∨ i = 6 ∨ i = 7 := by omega
      rcases this with rfl | rfl | rfl | rfl | rfl | rfl | rfl <;> rfl)
    rfl (by intro w h; cases h) (by intro w h; cases h)
    (by decide) (by decide) (by decide) (by decide) (by decide) (by decide)

/-- The statuses of the eight replies of that run: six times 200, then 429,
then 200. -/
theorem loginLimiter_replies_of_arrivals :
    (routeAll loginRoute HitStore.empty
      [(arrivals 1, senders 1), (arrivals 2, senders 2), (arrivals 3, senders 3),
        (arrivals 4, senders 4), (arrivals 5, senders 5), (arrivals 0, senders 0),
        (arrivals 6, senders 6), (arrivals 7, senders 7)]).map
      (fun r => match r.reply with
        | .json res => res.status
        | .text status _ => status)
      = [200, 200, 200, 200, 200, 200, 429, 200] := by
  decide

/-! ### The signup controller -/

theorem signup_missing_field (d : Deps) (body : Body)
    (h : body.email.truthy = false ∨ body.username.truthy = false ∨
      body.password.truthy = false ∨ body.confirmPassword.truthy = false) :
    signup d body = ⟨[], failure 400 "Please provide all required fields."⟩ := by
  unfold signup
  rcases h with h | h | h | h <;> simp [h]

theorem signup_mismatch (d : Deps) (body : Body)
    (he : body.email.truthy = true) (hu : body.username.truthy = true)
    (hp : body.password.truthy = true) (hc : body.confirmPassword.truthy = true)
    (h : body.password.strictNe body.confirmPassword = true) :
    signup d body = ⟨[], failure 400 "Passwords do not match."⟩ := by
  unfold signup
  simp [he, hu, hp, hc, h]

theorem signup_short_password (d : Deps) (body : Body)
    (he : body.email.truthy = true) (hu : body.username.truthy = true)
    (hp : body.password.truthy = true) (hc : body.confirmPassword.truthy = true)
    (hm : body.password.strictNe body.confirmPassword = false)
    (h : lengthLt body.password 6 = .ok true) :
    signup d body = ⟨[], failure 400 "Password must be at least 6 characters long."⟩ := by
  unfold signup
  simp [he, hu, hp, hc, hm, h]

/-- After validation, `signup` is the existence query followed by the rest. -/
theorem signup_valid (d : Deps) (body : Body) (h : passesValidation body = true) :
    signup d body =
      match d.findOne (.emailOrUsername body.email body.username) with
      | .error e => ⟨[.findOne (.emailOrUsername body.email body.username)], signupCatch e⟩
      | .ok (some _) =>
        ⟨[.findOne (.emailOrUsername body.email body.username)],
          failure 409 "Email or username already exists."⟩
      | .ok none =>
        match d.create body.email body.username body.password with
        | .error e =>
          ⟨[.findOne (.emailOrUsername body.email body.username),
            .create body.email body.username body.password], signupCatch e⟩
        | .ok newUser =>
          match (generateToken d newUser).2 with
          | .error e =>
            ⟨[.findOne (.emailOrUsername body.email body.username),
              .create body.email body.username body.password] ++ (generateToken d newUser).1,
              signupCatch e⟩
          | .ok token =>
            ⟨[.findOne (.emailOrUsername body.email body.username),
              .create body.email body.username body.password] ++ (generateToken d newUser).1,
              ⟨201, [("success", .leaf (.bool true)),
                     ("message", .leaf (.str "User created successfully.")),
                     ("token", .leaf (.str token)),
                     ("user", userPayload newUser)]⟩⟩ := by
  unfold passesValidation at h
  simp only [Bool.and_eq_true, Bool.not_eq_true'] at h
  obtain ⟨⟨⟨⟨⟨he, hu⟩, hp⟩, hc⟩, hm⟩, hl⟩ := h
  have hl6 : lengthLt body.password 6 = .ok false := by
    split at hl
    · assumption
    · cases hl
  unfold signup
  simp [he, hu, hp, hc, hm, hl6]

/-- C6. A signup request in which a required field is missing (falsy), or
`password !== confirmPassword`, or the password is a string whose length is
below 6, is answered 400, and the run makes no external call at all: neither
the existence query nor the create is executed. -/
theorem signup_rejects_invalid (d : Deps) (body : Body)
    (h : (body.email.truthy = false ∨ body.username.truthy = false ∨
        body.password.truthy = false ∨ body.confirmPassword.truthy = false) ∨
      body.password.strictNe body.confirmPassword = true ∨
      (∃ s, body.password = .str s ∧ utf16Length s < 6)) :
    (signup d body).res.status = 400 ∧
    (signup d body).res.field "success" = some (.leaf (.bool false)) ∧
    (signup d body).trace = [] ∧
    (∀ e ∈ (signup d body).trace, e.isFindOne = false ∧ e.isCreate = false) := by
  have key : (signup d body).res.status = 400 ∧
      (signup d body).res.field "success" = some (.leaf (.bool false)) ∧
      (signup d body).trace = [] := by
    by_cases hmiss : body.email.truthy = false ∨ body.username.truthy = false ∨
        body.password.truthy = false ∨ body.confirmPassword.truthy = false
    · rw [signup_missing_field d body hmiss]
      exact ⟨rfl, rfl, rfl⟩
    · simp only [not_or, Bool.not_eq_false] at hmiss
      obtain ⟨he, hu, hp, hc⟩ := hmiss
      by_cases hne : body.password.strictNe body.confirmPassword = true
      · rw [signup_mismatch d body he hu hp hc hne]
        exact ⟨rfl, rfl, rfl⟩
      · rcases h with h | h | ⟨s, hs, hlen⟩
        · rcases h with h | h | h | h <;> simp_all
        · exact absurd h hne
        · have hl : lengthLt body.password 6 = .ok true := by
            rw [hs]
            simp [lengthLt, hlen]
          rw [signup_short_password d body he hu hp hc (by simpa using hne) hl]
          exact ⟨rfl, rfl, rfl⟩
  refine ⟨key.1, key.2.1, key.2.2, ?_⟩
  rw [key.2.2]
  intro e he
  cases he

/-- Witness of C6: a signup whose two passwords differ. -/
theorem signup_rejects_invalid_witness :
    (signup (memDeps [] 1000)
      (signupBody (.str "a@b.com") (.str "abc") (.str "secret1") (.str "secret2"))).res.status
        = 400 ∧
    (signup (memDeps [] 1000)
      (signupBody (.str "a@b.com") (.str "abc") (.str "secret1") (.str "secret2"))).res.field
        "success" = some (.leaf (.bool false)) ∧
    (signup (memDeps [] 1000)
      (signupBody (.str "a@b.com") (.str "abc") (.str "secret1") (.str "secret2"))).trace = [] ∧
    (∀ e ∈ (signup (memDeps [] 1000)
      (signupBody (.str "a@b.com") (.str "abc") (.str "secret1") (.str "secret2"))).trace,
        e.isFindOne = false ∧ e.isCreate = false) :=
  signup_rejects_invalid (memDeps [] 1000)
    (signupBody (.str "a@b.com") (.str "abc") (.str "secret1") (.str "secret2"))
    (Or.inr (Or.inl (by decide)))

/-- C7. For a signup request that passes validation, when the existence query
on its email or username finds an account, the response is 409, the payload
has no token, and the run stops at the query: no account is created and no
token is signed. -/
theorem signup_conflict (d : Deps) (body : Body) (existing : User)
    (hv : passesValidation body = true)
    (hf : d.findOne (.emailOrUsername body.email body.username) = .ok (some existing)) :
    (signup d body).res.status = 409 ∧
    (signup d body).res.message = some "Email or username already exists." ∧
    (signup d body).res.field "token" = none ∧
    (signup d body).trace = [.findOne (.emailOrUsername body.email body.username)] ∧
    (∀ e ∈ (signup d body).trace, e.isCreate = false ∧ e.isSign = false) := by
  have heq : signup d body = ⟨[.findOne (.emailOrUsername body.email body.username)],
      failure 409 "Email or username already exists."⟩ := by
    rw [signup_valid d body hv, hf]
  rw [heq]
  refine ⟨rfl, rfl, rfl, rfl, ?_⟩
  intro e he
  simp only [List.mem_singleton] at he
  subst he
  exact ⟨rfl, rfl⟩

/-- Witness of C7: a signup with a new email and the username of `bob`. -/
theorem signup_conflict_witness :
    (signup (memDeps [alice 0, bob] 1000)
      (signupBody (.str "new@b.com") (.str "bob") (.str "secret1") (.str "secret1"))).res.status
        = 409 ∧
    (signup (memDeps [alice 0, bob] 1000)
      (signupBody (.str "new@b.com") (.str "bob") (.str "secret1") (.str "secret1"))).res.message
        = some "Email or username already exists." ∧
    (signup (memDeps [alice 0, bob] 1000)
      (signupBody (.str "new@b.com") (.str "bob") (.str "secret1") (.str "secret1"))).res.field
        "token" = none ∧
    (signup (memDeps [alice 0, bob] 1000)
      (signupBody (.str "new@b.com") (.str "bob") (.str "secret1") (.str "secret1"))).trace
        = [.findOne (.emailOrUsername (.str "new@b.com") (.str "bob"))] ∧
    (∀ e ∈ (signup (memDeps [alice 0, bob] 1000)
      (signupBody (.str "new@b.com") (.str "bob") (.str "secret1") (.str "secret1"))).trace,
        e.isCreate = false ∧ e.isSign = false) :=
  signup_conflict (memDeps [alice 0, bob] 1000)
    (signupBody (.str "new@b.com") (.str "bob") (.str "secret1") (.str "secret1")) bob
    (by decide) rfl

/-- C8. For a signup request that passes validation, when the existence query
finds no account and the store creates the account and the token is signed,
the response is 201 with the token and a `user` object holding exactly `id`,
`email` and `username` of the created account; the keys of the payload are
`success`, `message`, `token`, `user`, `id`, `email`, `username`, so it has no
password, counter or timestamp field. -/
theorem signup_created (d : Deps) (body : Body) (newUser : User) (token : String)
    (hv : passesValidation body = true)
    (hf : d.findOne (.emailOrUsername body.email body.username) = .ok none)
    (hc : d.create body.email body.username body.password = .ok newUser)
    (ht : (generateToken d newUser).2 = .ok token) :
    (signup d body).res.status = 201 ∧
    (signup d body).res.field "success" = some (.leaf (.bool true)) ∧
    (signup d body).res.field "token" = some (.leaf (.str token)) ∧
    (signup d body).res.field "user" = some (.obj [("id", .str newUser._id),
      ("email", .str newUser.email), ("username", .str newUser.username)]) ∧
    (signup d body).res.allKeys
      = ["success", "message", "token", "user", "id", "email", "username"] ∧
    (∀ k ∈ ["password", "failedLoginAttempts", "lastFailedLoginTime", "lastLoginTime"],
      k ∉ (signup d body).res.allKeys) := by
  have heq : signup d body =
      ⟨[.findOne (.emailOrUsername body.email body.username),
        .create body.email body.username body.password] ++ (generateToken d newUser).1,
        ⟨201, [("success", .leaf (.bool true)),
               ("message", .leaf (.str "User created successfully.")),
               ("token", .leaf (.str token)),
               ("user", userPayload newUser)]⟩⟩ := by
    rw [signup_valid d body hv, hf]
    simp only [hc, ht]
  rw [heq]
  refine ⟨rfl, rfl, rfl, rfl, rfl, ?_⟩
  have hk : (Response.mk 201 [("success", .leaf (.bool true)),
      ("message", .leaf (.str "User created successfully.")),
      ("token", .leaf (.str token)),
      ("user", userPayload newUser)]).allKeys
      = ["success", "message", "token", "user", "id", "email", "username"] := rfl
  simp only [hk]
  decide

/-- Witness of C8: the fresh signup of `a@b.com` as `abc` with password
`secret1` on an empty store. -/
theorem signup_created_witness :
    (signup (memDeps [] 1000)
      (signupBody (.str "a@b.com") (.str "abc") (.str "secret1") (.str "secret1"))).res.status
        = 201 ∧
    (signup (memDeps [] 1000)
      (signupBody (.str "a@b.com") (.str "abc") (.str "secret1") (.str "secret1"))).res.field
        "success" = some (.leaf (.bool true)) ∧
    (signup (memDeps [] 1000)
      (signupBody (.str "a@b.com") (.str "abc") (.str "secret1") (.str "secret1"))).res.field
        "token" = some (.leaf (.str "id0:a@b.com:your_secret_key")) ∧
    (signup (memDeps [] 1000)
      (signupBody (.str "a@b.com") (.str "abc") (.str "secret1") (.str "secret1"))).res.field
        "user" = some (.obj [("id", .str "id0"), ("email", .str "a@b.com"),
          ("username", .str "abc")]) ∧
    (signup (memDeps [] 1000)
      (signupBody (.str "a@b.com") (.str "abc") (.str "secret1") (.str "secret1"))).res.allKeys
        = ["success", "message", "token", "user", "id", "email", "username"] ∧
    (∀ k ∈ ["password", "failedLoginAttempts", "lastFailedLoginTime", "lastLoginTime"],
      k ∉ (signup (memDeps [] 1000)
        (signupBody (.str "a@b.com") (.str "abc") (.str "secret1")
          (.str "secret1"))).res.allKeys) :=
  signup_created (memDeps [] 1000)
    (signupBody (.str "a@b.com") (.str "abc") (.str "secret1") (.str "secret1"))
    ⟨"id0", "a@b.com", "abc", "h:secret1", 0, none, none⟩ "id0:a@b.com:your_secret_key"
    (by decide) rfl rfl rfl

/-! ### Wrong password and unknown email -/

theorem loginVerify_wrong_password (d : Deps) (u : User) (pw : JsVal)
    (hver : d.matchPassword u pw = .ok false)
    (hsave : d.save (u.afterFailure d.now) = .ok ()) :
    loginVerify d u pw =
      ⟨[.matchPassword u pw, .save (u.afterFailure d.now)],
        ⟨401, [("success", .leaf (.bool false)),
               ("message", .leaf (.str "Invalid email or password.")),
               ("requiresCaptcha", .leaf (.bool
                 (decide (jsAddOne u.failedLoginAttempts ≥ CAPTCHA_REQUIRED_AFTER_ATTEMPTS))))]⟩⟩ := by
  unfold loginVerify
  rw [hver]
  simp only [User.afterFailure] at hsave ⊢
  rw [hsave]

/-- The claim C9 as stated fails for `alice` with two failed logins and a
wrong password: the 401 response carries `requiresCaptcha: true`. -/
theorem login_third_failure_no_flag_counterexample :
    ¬ ((login (memDeps [alice 2] 1000)
          (loginBody (.str "alice@example.com") (.str "wrong") .undefined)).res.status = 401 ∧
        (login (memDeps [alice 2] 1000)
          (loginBody (.str "alice@example.com") (.str "wrong") .undefined)).res.field
            "requiresCaptcha" ≠ some (.leaf (.bool true)) ∧
        (savedAccounts (login (memDeps [alice 2] 1000)
          (loginBody (.str "alice@example.com") (.str "wrong") .undefined)).trace).map
            (fun u => u.failedLoginAttempts) = [3]) := by
  intro h
  exact h.2.1 rfl

/-- C9, amended. For an existing account with `failedLoginAttempts = 2`, a
login attempt whose password verification fails is answered 401 with
`requiresCaptcha: true` (the flag is computed from the incremented counter),
and the account is saved with `failedLoginAttempts = 3`. -/
theorem login_third_failure_flags_captcha (d : Deps) (body : Body) (u : User)
    (he : body.email.truthy = true) (hp : body.password.truthy = true)
    (hf : d.findOne (.byEmail body.email) = .ok (some u))
    (h2 : u.failedLoginAttempts = 2)
    (hver : d.matchPassword u body.password = .ok false)
    (hsave : d.save (u.afterFailure d.now) = .ok ()) :
    (login d body).res.status = 401 ∧
    (login d body).res.message = some "Invalid email or password." ∧
    (login d body).res.field "requiresCaptcha" = some (.leaf (.bool true)) ∧
    savedAccounts (login d body).trace = [u.afterFailure d.now] ∧
    (u.afterFailure d.now).failedLoginAttempts = 3 := by
  have hlt : u.failedLoginAttempts < CAPTCHA_REQUIRED_AFTER_ATTEMPTS := by
    rw [h2]
    decide
  rw [login_below_threshold d body u he hp hf hlt,
    loginVerify_wrong_password d u body.password hver hsave]
  have hflag : decide (jsAddOne u.failedLoginAttempts ≥ CAPTCHA_REQUIRED_AFTER_ATTEMPTS)
      = true := by
    rw [h2]
    decide
  simp only [hflag]
  refine ⟨rfl, rfl, rfl, rfl, ?_⟩
  simp only [User.afterFailure, h2]
  decide

/-- Witness of C9, amended: `alice` with two failed logins and a wrong
password. -/
theorem login_third_failure_flags_captcha_witness :
    (login (memDeps [alice 2] 1000)
      (loginBody (.str "alice@example.com") (.str "wrong") .undefined)).res.status = 401 ∧
    (login (memDeps [alice 2] 1000)
      (loginBody (.str "alice@example.com") (.str "wrong") .undefined)).res.message
        = some "Invalid email or password." ∧
    (login (memDeps [alice 2] 1000)
      (loginBody (.str "alice@example.com") (.str "wrong") .undefined)).res.field
        "requiresCaptcha" = some (.leaf (.bool true)) ∧
    savedAccounts (login (memDeps [alice 2] 1000)
      (loginBody (.str "alice@example.com") (.str "wrong") .undefined)).trace
        = [(alice 2).afterFailure (memDeps [alice 2] 1000).now] ∧
    ((alice 2).afterFailure (memDeps [alice 2] 1000).now).failedLoginAttempts = 3 :=
  login_third_failure_flags_captcha (memDeps [alice 2] 1000)
    (loginBody (.str "alice@example.com") (.str "wrong") .undefined) (alice 2)
    rfl rfl rfl rfl rfl rfl

/-- C10. A login attempt with truthy email and password whose email matches
no account is answered 401 with the message "Invalid email or password.",
whatever its `recaptchaToken`, and the run makes no call to the CAPTCHA
service. A login attempt on an existing account whose password verification
fails gets the same status and the same message. -/
theorem login_unknown_email_generic (d : Deps) (body : Body)
    (he : body.email.truthy = true) (hp : body.password.truthy = true)
    (hf : d.findOne (.byEmail body.email) = .ok none)
    (d2 : Deps) (body2 : Body) (u : User) (pw : JsVal)
    (hreach : Effect.matchPassword u pw ∈ (login d2 body2).trace)
    (hver : d2.matchPassword u pw = .ok false)
    (hsave : d2.save (u.afterFailure d2.now) = .ok ()) :
    (login d body).res.status = 401 ∧
    (login d body).res.message = some "Invalid email or password." ∧
    (∀ e ∈ (login d body).trace, e.isCaptcha = false) ∧
    (login d2 body2).res.status = (login d body).res.status ∧
    (login d2 body2).res.message = (login d body).res.message := by
  obtain ⟨rfl, -, pre, -, heq⟩ := login_reaches_verify d2 body2 u pw hreach
  rw [heq, loginVerify_wrong_password d2 u _ hver hsave, login_no_account d body he hp hf]
  refine ⟨rfl, rfl, ?_, rfl, rfl⟩
  intro e hmem
  simp only [List.mem_singleton] at hmem
  subst hmem
  rfl

/-- Witness of C10: a login for an unknown email carrying a CAPTCHA response,
next to a login of `alice` with a wrong password. -/
theorem login_unknown_email_generic_witness :
    (login (memDeps [alice 0] 1000)
      (loginBody (.str "nobody@example.com") (.str "secret1") (.str "human"))).res.status
        = 401 ∧
    (login (memDeps [alice 0] 1000)
      (loginBody (.str "nobody@example.com") (.str "secret1") (.str "human"))).res.message
        = some "Invalid email or password." ∧
    (∀ e ∈ (login (memDeps [alice 0] 1000)
      (loginBody (.str "nobody@example.com") (.str "secret1") (.str "human"))).trace,
        e.isCaptcha = false) ∧
    (login (memDeps [alice 0] 1000)
      (loginBody (.str "alice@example.com") (.str "wrong") .undefined)).res.status
      = (login (memDeps [alice 0] 1000)
        (loginBody (.str "nobody@example.com") (.str "secret1") (.str "human"))).res.status ∧
    (login (memDeps [alice 0] 1000)
      (loginBody (.str "alice@example.com") (.str "wrong") .undefined)).res.message
      = (login (memDeps [alice 0] 1000)
        (loginBody (.str "nobody@example.com") (.str "secret1") (.str "human"))).res.message :=
  login_unknown_email_generic (memDeps [alice 0] 1000)
    (loginBody (.str "nobody@example.com") (.str "secret1") (.str "human")) rfl rfl rfl
    (memDeps [alice 0] 1000)
    (loginBody (.str "alice@example.com") (.str "wrong") .undefined) (alice 0) (.str "wrong")
    (by decide) rfl rfl

/-! ### Token issue and verification -/

/-- C11. The claims `generateToken` signs are the id and the email of the
account and nothing else: two accounts that agree on id and email give the
same signing call and the same result, whatever their other fields are. The
`expiresIn` option is `7d` when `JWT_EXPIRE` is unset (or empty) and the
configured value otherwise. -/
theorem generateToken_binds_identity (d : Deps) (u v : User)
    (hid : u._id = v._id) (hemail : u.email = v.email) :
    generateToken d u = generateToken d v ∧
    (generateToken d u).1 =
      [.jwtSign ⟨u._id, u.email⟩ (Env.orElse d.env.JWT_SECRET "your_secret_key")
        (Env.orElse d.env.JWT_EXPIRE "7d")] ∧
    (d.env.JWT_EXPIRE = none → Env.orElse d.env.JWT_EXPIRE "7d" = "7d") ∧
    (∀ s, s ≠ "" → d.env.JWT_EXPIRE = some s → Env.orElse d.env.JWT_EXPIRE "7d" = s) := by
  refine ⟨?_, rfl, ?_, ?_⟩
  · unfold generateToken
    rw [hid, hemail]
  · intro h
    rw [h]
    rfl
  · intro s hs h
    rw [h]
    simp [Env.orElse, hs]

/-- Witness of C11: `alice` with no failed login and `alice` with five failed
logins, another digest and timestamps. -/
theorem generateToken_binds_identity_witness :
    generateToken (memDeps [] 1000) (alice 0)
      = generateToken (memDeps [] 1000)
          ⟨"id0", "alice@example.com", "alice", "h:other", 5, some 10, some 20⟩ ∧
    (generateToken (memDeps [] 1000) (alice 0)).1 =
      [.jwtSign ⟨(alice 0)._id, (alice 0).email⟩
        (Env.orElse (memDeps [] 1000).env.JWT_SECRET "your_secret_key")
        (Env.orElse (memDeps [] 1000).env.JWT_EXPIRE "7d")] ∧
    ((memDeps [] 1000).env.JWT_EXPIRE = none →
      Env.orElse (memDeps [] 1000).env.JWT_EXPIRE "7d" = "7d") ∧
    (∀ s, s ≠ "" → (memDeps [] 1000).env.JWT_EXPIRE = some s →
      Env.orElse (memDeps [] 1000).env.JWT_EXPIRE "7d" = s) :=
  generateToken_binds_identity (memDeps [] 1000) (alice 0)
    ⟨"id0", "alice@example.com", "alice", "h:other", 5, some 10, some 20⟩ rfl rfl

/-- C12, at the failing configuration. With `JWT_SECRET` unset,
`generateToken` signs the token of `alice` with the fallback secret
`your_secret_key`, and `authenticate`, which passes the unset secret to the
verifier, answers that very token with 401 and does not call `next()`. -/
theorem authenticate_rejects_issued_token_without_secret :
    (memDeps [alice 0] 1000).env.JWT_SECRET = none ∧
    (generateToken (memDeps [alice 0] 1000) (alice 0)).2
      = .ok "id0:alice@example.com:your_secret_key" ∧
    authenticate (memVerify [⟨"id0", "alice@example.com"⟩]) (memDeps [alice 0] 1000).env
        (meRequest (some "Bearer id0:alice@example.com:your_secret_key"))
      = .respond (failure 401 "Invalid token. Please log in again.") ∧
    memVerify [⟨"id0", "alice@example.com"⟩] "id0:alice@example.com:your_secret_key"
        (some "your_secret_key") = .ok ⟨"id0", "alice@example.com"⟩ := by
  refine ⟨rfl, rfl, ?_, ?_⟩
  · decide
  · rfl

theorem stripBearer_prefixed (token : String) :
    stripBearer ("Bearer " ++ token) = token := by
  unfold stripBearer
  have h : ("Bearer " ++ token).toList = 'B' :: 'e' :: 'a' :: 'r' :: 'e' :: 'r' :: ' ' ::
      token.toList := by
    simp [String.toList]
  rw [h]
  have hp : "Bearer ".toList = ['B', 'e', 'a', 'r', 'e', 'r', ' '] := rfl
  rw [hp]
  simp [replaceFirstChars, List.isPrefixOf]

/-- With a non-empty `JWT_SECRET`, a verifier that accepts what the signer
issued under that secret makes `authenticate` call `next()` with the id and
email of the account. -/
theorem authenticate_roundtrip_with_secret (d : Deps) (verify : JwtVerify) (u : User)
    (secret token : String) (req : Request)
    (hs : d.env.JWT_SECRET = some secret) (hne : secret ≠ "")
    (hsign : (generateToken d u).2 = .ok token) (htok : token ≠ "")
    (hsound : ∀ c e t, d.jwtSign c secret e = .ok t → verify t (some secret) = .ok c)
    (hreq : req.authorization = some ("Bearer " ++ token)) :
    authenticate verify d.env req = .next u._id u.email := by
  unfold generateToken at hsign
  simp only [hs, Env.orElse, bne_iff_ne, ne_eq, hne, not_false_eq_true, if_true] at hsign
  have hv := hsound _ _ _ hsign
  unfold authenticate
  simp only [hreq, Option.map_some', stripBearer_prefixed, htok, if_false, hs, hv]

/-- C13. On a protected route, `authenticate` calls `next()` exactly when the
`Authorization` header is present, is not empty after `Bearer ` is removed,
and the verifier accepts the remaining token under `JWT_SECRET`; in that case
`req.userId` and `req.userEmail` are the decoded id and email. In every other
case (no header, empty token, verification throws) the response is 401,
`next()` is not called and the controller of `GET /me` does not run. -/
theorem authenticate_next_iff (verify : JwtVerify)
    (findById : String → Except String (Option User)) (env : Env) (req : Request) :
    (∀ userId userEmail, authenticate verify env req = .next userId userEmail ↔
      ∃ header, req.authorization = some header ∧ stripBearer header ≠ "" ∧
        verify (stripBearer header) env.JWT_SECRET = .ok ⟨userId, userEmail⟩) ∧
    (∀ r, authenticate verify env req = .respond r →
      r.status = 401 ∧ (meRoute verify findById env req) = (r, false)) ∧
    (req.authorization = none →
      ∃ r, authenticate verify env req = .respond r ∧ r.status = 401) ∧
    (∀ header, req.authorization = some header → stripBearer header = "" →
      ∃ r, authenticate verify env req = .respond r ∧ r.status = 401) ∧
    (∀ header msg, req.authorization = some header →
      verify (stripBearer header) env.JWT_SECRET = .error msg →
      ∃ r, authenticate verify env req = .respond r ∧ r.status = 401) := by
  unfold meRoute authenticate
  cases hh : req.authorization with
  | none => simp [failure]
  | some header =>
    simp only [Option.map_some']
    by_cases he : stripBearer header = ""
    · simp [he, failure]
    · cases hv : verify (stripBearer header) env.JWT_SECRET with
      | error msg => simp [he, hv, failure]
      | ok c =>
        simp only [he, if_false, hv]
        refine ⟨?_, ?_, ?_, ?_, ?_⟩
        · intro userId userEmail
          constructor
          · intro h
            injection h with h1 h2
            subst h1 h2
            exact ⟨header, rfl, he, hv⟩
          · rintro ⟨header2, h2, -, hv2⟩
            injection h2 with h2
            subst h2
            rw [hv] at hv2
            injection hv2 with hc
            rw [hc]
        · intro r h
          cases h
        · intro h
          cases h
        · intro header2 h2 hempty
          injection h2 with h2
          subst h2
          exact absurd hempty he
        · intro header2 msg h2 hv2
          injection h2 with h2
          subst h2
          rw [hv] at hv2
          cases hv2

/-! ### Thrown errors -/

/-- C14, at the failing input. A signup that passes validation and the
existence check, and whose create is then refused by the uniqueness
constraint of the store, is answered 500 with the text of the store error,
not 409. -/
theorem signup_duplicate_at_create_is_500 :
    passesValidation
      (signupBody (.str "a@b.com") (.str "abc") (.str "secret1") (.str "secret1")) = true ∧
    (createThrows "E11000 duplicate key error collection: users index: email_1").findOne
      (.emailOrUsername (.str "a@b.com") (.str "abc")) = .ok none ∧
    (signup (createThrows "E11000 duplicate key error collection: users index: email_1")
      (signupBody (.str "a@b.com") (.str "abc") (.str "secret1") (.str "secret1"))).res
      = failure 500 "E11000 duplicate key error collection: users index: email_1" ∧
    (signup (createThrows "E11000 duplicate key error collection: users index: email_1")
      (signupBody (.str "a@b.com") (.str "abc") (.str "secret1") (.str "secret1"))).res.status
      ≠ 409 := by
  refine ⟨by decide, rfl, by decide, by decide⟩

theorem eraseMessage_error {α : Type} (x : Except String α) (msg : String)
    (h : x = .error msg) : eraseMessage x = .error "" := by
  rw [h]
  rfl

theorem eraseMessage_ok {α : Type} (x : Except String α) (a : α)
    (h : x = .ok a) : eraseMessage x = .ok a := by
  rw [h]
  rfl

theorem loginVerify_eraseMessages (d : Deps) (u : User) (pw : JsVal) :
    loginVerify d.eraseMessages u pw = loginVerify d u pw := by
  unfold loginVerify generateToken
  simp only [Deps.eraseMessages]
  cases hm : d.matchPassword u pw with
  | error msg => rfl
  | ok b =>
    cases b with
    | false =>
      simp only [eraseMessage]
      cases hs : d.save ({ u with
          failedLoginAttempts := jsAddOne u.failedLoginAttempts
          lastFailedLoginTime := some d.now } : User) with
      | error msg => rfl
      | ok x => rfl
    | true =>
      simp only [eraseMessage]
      cases hs : d.save ({ u with
          failedLoginAttempts := 0
          lastLoginTime := some d.now } : User) with
      | error msg => rfl
      | ok x =>
        simp only [eraseMessage]
        cases ht : d.jwtSign ⟨u._id, u.email⟩ (Env.orElse d.env.JWT_SECRET "your_secret_key")
            (Env.orElse d.env.JWT_EXPIRE "7d") with
        | error msg => rfl
        | ok token => rfl

/-- The run of `login` does not depend on the text of the errors thrown by its
collaborators. -/
theorem login_eraseMessages (d : Deps) (body : Body) :
    login d.eraseMessages body = login d body := by
  unfold login
  simp only [loginVerify_eraseMessages]
  simp only [Deps.eraseMessages]
  split
  · rfl
  · cases hf : d.findOne (.byEmail body.email) with
    | error msg => rfl
    | ok found =>
      cases found with
      | none => rfl
      | some user =>
        simp only [eraseMessage]
        split
        · split
          · rfl
          · cases hc : d.axiosPost RECAPTCHA_VERIFY_URL d.env.RECAPTCHA_SECRET_KEY
                body.recaptchaToken with
            | error msg => rfl
            | ok data => rfl
        · rfl

/-- C15, at the failing input. Two signup runs whose `User.create` throws,
differing only in the text of the error, send the text of the error to the
caller and so send different payloads; two login runs whose store lookup
throws with those two texts send the same generic payload. -/
theorem signup_error_text_leaks :
    (signup (createThrows "connection reset by peer")
      (signupBody (.str "a@b.com") (.str "abc") (.str "secret1") (.str "secret1"))).res
      = failure 500 "connection reset by peer" ∧
    (signup (createThrows "E11000 duplicate key error")
      (signupBody (.str "a@b.com") (.str "abc") (.str "secret1") (.str "secret1"))).res
      = failure 500 "E11000 duplicate key error" ∧
    ¬ ((signup (createThrows "connection reset by peer")
          (signupBody (.str "a@b.com") (.str "abc") (.str "secret1") (.str "secret1"))).res.body
        = (signup (createThrows "E11000 duplicate key error")
          (signupBody (.str "a@b.com") (.str "abc") (.str "secret1")
            (.str "secret1"))).res.body) ∧
    (login (lookupThrows "connection reset by peer")
        (loginBody (.str "alice@example.com") (.str "secret1") .undefined)).res
      = failure 500 "Error during login. Please try again." ∧
    (login (lookupThrows "E11000 duplicate key error")
        (loginBody (.str "alice@example.com") (.str "secret1") .undefined)).res
      = failure 500 "Error during login. Please try again." := by
  decide

/-- Two login runs whose collaborators differ only in the text of the errors
they throw make the same calls and send the same response. A signup run in
which the existence query, the create or the token signing throws is answered
500 with the message of that error, and with the generic text only when that
message is empty. -/
theorem login_response_ignores_error_text (d1 d2 : Deps) (body : Body)
    (h : d1.eraseMessages = d2.eraseMessages)
    (d : Deps) (sbody : Body) (msg : String)
    (hv : passesValidation sbody = true)
    (hthrow : d.findOne (.emailOrUsername sbody.email sbody.username) = .error msg ∨
      (d.findOne (.emailOrUsername sbody.email sbody.username) = .ok none ∧
        d.create sbody.email sbody.username sbody.password = .error msg) ∨
      (d.findOne (.emailOrUsername sbody.email sbody.username) = .ok none ∧
        ∃ newUser, d.create sbody.email sbody.username sbody.password = .ok newUser ∧
          (generateToken d newUser).2 = .error msg)) :
    login d1 body = login d2 body ∧
    (signup d sbody).res.status = 500 ∧
    (signup d sbody).res.message
      = some (if msg != "" then msg else "Error during signup. Please try again.") := by
  refine ⟨?_, ?_⟩
  · rw [← login_eraseMessages d1 body, ← login_eraseMessages d2 body, h]
  · have hres : (signup d sbody).res = signupCatch msg := by
      rw [signup_valid d sbody hv]
      rcases hthrow with hf | ⟨hf, hc⟩ | ⟨hf, newUser, hc, ht⟩
      · rw [hf]
      · rw [hf]
        simp only [hc]
      · rw [hf]
        simp only [hc, ht]
    rw [hres]
    exact ⟨rfl, rfl⟩

/-- The claim C16 as stated fails when the verification call throws for
`alice` with three failed logins: the status is 500, not the 403 of a CAPTCHA
response that fails verification. -/
theorem login_captcha_service_failure_counterexample :
    ¬ ((login captchaDown
          (loginBody (.str "alice@example.com") (.str "secret1") (.str "human"))).res.status
        = (login (memDeps [alice 3] 1000)
          (loginBody (.str "alice@example.com") (.str "secret1") (.str "bot"))).res.status) ∧
    (login (memDeps [alice 3] 1000)
      (loginBody (.str "alice@example.com") (.str "secret1") (.str "bot"))).res.status = 403 ∧
    (login captchaDown
      (loginBody (.str "alice@example.com") (.str "secret1") (.str "human"))).res.status
      = 500 := by
  decide

/-- C16, amended. For an existing account with `failedLoginAttempts >= 3` and
a login attempt carrying a CAPTCHA response, when the call to the verification
service throws, the attempt is rejected with status 500 and the message "Error
verifying CAPTCHA. Please try again."; it is not let through: the run contains
no password verification, no token signing and no write of the store. -/
theorem login_captcha_service_failure (d : Deps) (body : Body) (u : User) (msg : String)
    (he : body.email.truthy = true) (hp : body.password.truthy = true)
    (hf : d.findOne (.byEmail body.email) = .ok (some u))
    (hn : u.failedLoginAttempts ≥ 3)
    (ht : body.recaptchaToken.truthy = true)
    (hc : captchaReply d body = .error msg) :
    (login d body).res = failure 500 "Error verifying CAPTCHA. Please try again." ∧
    (login d body).res.status = 500 ∧
    (login d body).trace = [.findOne (.byEmail body.email), captchaCall d body] ∧
    (∀ e ∈ (login d body).trace,
      e.isMatchPassword = false ∧ e.isSign = false ∧ e.isWrite = false) := by
  rw [login_captcha_throws d body u msg he hp hf hn ht hc]
  refine ⟨rfl, rfl, rfl, ?_⟩
  intro e hmem
  simp only [List.mem_cons, List.mem_singleton, List.not_mem_nil, or_false] at hmem
  rcases hmem with rfl | rfl
  · exact ⟨rfl, rfl, rfl⟩
  · exact ⟨rfl, rfl, rfl⟩

/-- Witness of C16, amended: `alice` with three failed logins while the
verification service is down. -/
theorem login_captcha_service_failure_witness :
    (login captchaDown
      (loginBody (.str "alice@example.com") (.str "secret1") (.str "human"))).res
      = failure 500 "Error verifying CAPTCHA. Please try again." ∧
    (login captchaDown
      (loginBody (.str "alice@example.com") (.str "secret1") (.str "human"))).res.status
      = 500 ∧
    (login captchaDown
      (loginBody (.str "alice@example.com") (.str "secret1") (.str "human"))).trace
      = [.findOne (.byEmail (.str "alice@example.com")),
          captchaCall captchaDown
            (loginBody (.str "alice@example.com") (.str "secret1") (.str "human"))] ∧
    (∀ e ∈ (login captchaDown
      (loginBody (.str "alice@example.com") (.str "secret1") (.str "human"))).trace,
      e.isMatchPassword = false ∧ e.isSign = false ∧ e.isWrite = false) :=
  login_captcha_service_failure captchaDown
    (loginBody (.str "alice@example.com") (.str "secret1") (.str "human")) (alice 3)
    "timeout of 5000ms exceeded" rfl rfl rfl (by decide) rfl rfl

/-! ### The attempt ledger -/

/-- C17. For every request whose honeypot field is filled, the honeypot
middleware makes one write of the attempt log before it responds: a record
with status `suspicious`, reason "Honeypot field filled - likely bot" and the
declared email, or `null` when none was declared. The response is the 400
rejection whether the write returns or throws. -/
theorem honeypot_writes_suspicious_record (d : Deps) (req : Request)
    (h : req.body.website.truthy = true) :
    (honeypotMiddleware d req).trace = [.logCreate (honeypotRecord req)] ∧
    attemptRecords (honeypotMiddleware d req).trace = [honeypotRecord req] ∧
    (honeypotRecord req).status = "suspicious" ∧
    (honeypotRecord req).reason = some "Honeypot field filled - likely bot" ∧
    (honeypotRecord req).email = (if req.body.email.truthy then req.body.email else .null) ∧
    (honeypotMiddleware d req).res = some (failure 400 "Invalid request. Please try again.") ∧
    (∀ msg, d.logCreate (honeypotRecord req) = .error msg →
      (honeypotMiddleware d req).res
        = some (failure 400 "Invalid request. Please try again.")) := by
  rw [honeypot_filled d req h]
  exact ⟨rfl, rfl, rfl, rfl, rfl, rfl, fun _ _ => rfl⟩

/-- Witness of C17: a filled honeypot while the attempt log refuses writes. -/
theorem honeypot_writes_suspicious_record_witness :
    (honeypotMiddleware logDown (requestFrom "/login"
      ⟨.undefined, .undefined, .undefined, .undefined, .undefined, .str "x"⟩)).trace
      = [.logCreate (honeypotRecord (requestFrom "/login"
          ⟨.undefined, .undefined, .undefined, .undefined, .undefined, .str "x"⟩))] ∧
    attemptRecords (honeypotMiddleware logDown (requestFrom "/login"
      ⟨.undefined, .undefined, .undefined, .undefined, .undefined, .str "x"⟩)).trace
      = [honeypotRecord (requestFrom "/login"
          ⟨.undefined, .undefined, .undefined, .undefined, .undefined, .str "x"⟩)] ∧
    (honeypotRecord (requestFrom "/login"
      ⟨.undefined, .undefined, .undefined, .undefined, .undefined, .str "x"⟩)).status
      = "suspicious" ∧
    (honeypotRecord (requestFrom "/login"
      ⟨.undefined, .undefined, .undefined, .undefined, .undefined, .str "x"⟩)).reason
      = some "Honeypot field filled - likely bot" ∧
    (honeypotRecord (requestFrom "/login"
      ⟨.undefined, .undefined, .undefined, .undefined, .undefined, .str "x"⟩)).email
      = (if (requestFrom "/login" ⟨.undefined, .undefined, .undefined, .undefined, .undefined,
            .str "x"⟩).body.email.truthy
          then (requestFrom "/login" ⟨.undefined, .undefined, .undefined, .undefined,
            .undefined, .str "x"⟩).body.email
          else .null) ∧
    (honeypotMiddleware logDown (requestFrom "/login"
      ⟨.undefined, .undefined, .undefined, .undefined, .undefined, .str "x"⟩)).res
      = some (failure 400 "Invalid request. Please try again.") ∧
    (∀ msg, logDown.logCreate (honeypotRecord (requestFrom "/login"
        ⟨.undefined, .undefined, .undefined, .undefined, .undefined, .str "x"⟩)) = .error msg →
      (honeypotMiddleware logDown (requestFrom "/login"
        ⟨.undefined, .undefined, .undefined, .undefined, .undefined, .str "x"⟩)).res
        = some (failure 400 "Invalid request. Please try again.")) :=
  honeypot_writes_suspicious_record logDown (requestFrom "/login"
    ⟨.undefined, .undefined, .undefined, .undefined, .undefined, .str "x"⟩) rfl

theorem logged_json (route : Deps → HitStore → Request → RouteRun) (d : Deps)
    (store : HitStore) (req : Request) (data : Response)
    (h : (route d store req).reply = .json data) :
    (logged route d store req).trace = (route d store req).trace ++ requestLogger req data := by
  simp only [logged, h]

/-- C18, at the failing inputs. Below `app.use(requestLogger)`, a login of
`alice` with her password, handled in the router under the path `/login`, is
answered 200 and writes no attempt record, because the wrapped `res.json`
compares `req.path` with `/api/auth/login`; the honeypot rejection on that
path writes the one record of the middleware. For a request whose `req.path`
is one of the two paths the logger names, the honeypot rejection writes two
records, and for any other path a login answered by the controller writes
none. -/
theorem attempt_records_zero_or_two :
    (∃ r, (logged loginRoute (memDeps [alice 0] 1000) HitStore.empty (requestFrom "/login"
        (loginBody (.str "alice@example.com") (.str "secret1") .undefined))).reply = .json r ∧
      r.status = 200) ∧
    attemptRecords (logged loginRoute (memDeps [alice 0] 1000) HitStore.empty
      (requestFrom "/login"
        (loginBody (.str "alice@example.com") (.str "secret1") .undefined))).trace = [] ∧
    (attemptRecords (logged loginRoute (memDeps [alice 0] 1000) HitStore.empty
      (requestFrom "/login" ⟨.str "alice@example.com", .undefined, .str "secret1", .undefined,
        .undefined, .str "x"⟩)).trace).length = 1 ∧
    (∀ p : String, p = "/api/auth/login" ∨ p = "/api/auth/signup" →
      (attemptRecords (logged loginRoute (memDeps [alice 0] 1000) HitStore.empty
        (requestFrom p ⟨.str "alice@example.com", .undefined, .str "secret1", .undefined,
          .undefined, .str "x"⟩)).trace).map (fun r => r.status)
        = ["suspicious", "failure"]) ∧
    (∀ p : String, ¬ (p = "/api/auth/login" ∨ p = "/api/auth/signup") →
      attemptRecords (logged loginRoute (memDeps [alice 0] 1000) HitStore.empty
        (requestFrom p
          (loginBody (.str "alice@example.com") (.str "secret1") .undefined))).trace = []) := by
  refine ⟨⟨_, rfl, rfl⟩, by decide, by decide, ?_, ?_⟩
  · intro p hp
    have hlog : requestLogger (requestFrom p ⟨.str "alice@example.com", .undefined,
        .str "secret1", .undefined, .undefined, .str "x"⟩)
        (failure 400 "Invalid request. Please try again.")
        = [.logCreate (loggerRecord (requestFrom p ⟨.str "alice@example.com", .undefined,
            .str "secret1", .undefined, .undefined, .str "x"⟩)
            (failure 400 "Invalid request. Please try again."))] := if_pos hp
    have hreply : (loginRoute (memDeps [alice 0] 1000) HitStore.empty
        (requestFrom p ⟨.str "alice@example.com", .undefined, .str "secret1", .undefined,
          .undefined, .str "x"⟩)).reply
        = .json (failure 400 "Invalid request. Please try again.") := rfl
    rw [logged_json loginRoute _ _ _ _ hreply, hlog]
    rfl
  · intro p hp
    have hlog : ∀ data, requestLogger (requestFrom p
        (loginBody (.str "alice@example.com") (.str "secret1") .undefined)) data = [] :=
      fun _ => if_neg hp
    obtain ⟨r, hreply⟩ : ∃ r, (loginRoute (memDeps [alice 0] 1000) HitStore.empty
        (requestFrom p (loginBody (.str "alice@example.com") (.str "secret1")
          .undefined))).reply = .json r := ⟨_, rfl⟩
    rw [logged_json loginRoute _ _ _ r hreply, hlog]
    rfl

/-! ### The username rule of the signup form -/

theorem isWordChar_iff (c : Char) :
    isWordChar c = true ↔ (c.isAlpha = true ∨ c.isDigit = true ∨ c = '_') := by
  have h95 : c = '_' ↔ c.toNat = 95 := by
    constructor
    · rintro rfl
      rfl
    · intro h
      have := Char.ofNat_toNat c
      rw [h] at this
      exact this.symm
  simp only [isWordChar, Char.isAlpha, Char.isUpper, Char.isLower, Char.isDigit, h95,
    Bool.or_eq_true, Bool.and_eq_true, decide_eq_true_eq, beq_iff_eq, Char.toNat, ge_iff_le,
    UInt32.le_def, BitVec.le_def, UInt32.toNat]
  have e65 : (UInt32.toBitVec 65).toNat = 65 := rfl
  have e90 : (UInt32.toBitVec 90).toNat = 90 := rfl
  have e97 : (UInt32.toBitVec 97).toNat = 97 := rfl
  have e122 : (UInt32.toBitVec 122).toNat = 122 := rfl
  have e48 : (UInt32.toBitVec 48).toNat = 48 := rfl
  have e57 : (UInt32.toBitVec 57).toNat = 57 := rfl
  rw [e65, e90, e97, e122, e48, e57]
  generalize c.val.toBitVec.toNat = n
  omega

theorem isWordChar_basic_plane (c : Char) (h : isWordChar c = true) : c.toNat < 0x10000 := by
  simp only [isWordChar, Bool.or_eq_true, Bool.and_eq_true, decide_eq_true_eq,
    beq_iff_eq] at h
  omega

theorem foldl_units_basic_plane (l : List Char) (n : Nat)
    (h : ∀ c ∈ l, c.toNat < 0x10000) :
    l.foldl (fun n c => n + (if c.toNat < 0x10000 then 1 else 2)) n = n + l.length := by
  induction l generalizing n with
  | nil => rfl
  | cons c cs ih =>
    have hc : c.toNat < 0x10000 := h c (List.mem_cons_self c cs)
    rw [List.foldl_cons, if_pos hc, ih (n + 1) (fun x hx => h x (List.mem_cons_of_mem c hx)),
      List.length_cons]
    omega

/-- A string of word characters has as many UTF-16 code units as characters. -/
theorem utf16Length_of_word (s : String) (h : ∀ c ∈ s.toList, isWordChar c = true) :
    utf16Length s = s.length := by
  unfold utf16Length
  rw [foldl_units_basic_plane s.toList 0 (fun c hc => isWordChar_basic_plane c (h c hc)),
    Nat.zero_add]
  cases s
  rfl

/-- C19. For every non-empty username string, `validateUsername` reports
`isValid: true` exactly when the string has between 3 and 20 characters and
every character is an ASCII letter, a digit or an underscore. -/
theorem validateUsername_valid_iff (u : String) (hne : u ≠ "") :
    (validateUsername u).isValid = some true ↔
      (3 ≤ u.length ∧ u.length ≤ 20 ∧
        ∀ c ∈ u.toList, c.isAlpha = true ∨ c.isDigit = true ∨ c = '_') := by
  have hall : (∀ c ∈ u.toList, c.isAlpha = true ∨ c.isDigit = true ∨ c = '_') ↔
      ∀ c ∈ u.toList, isWordChar c = true :=
    forall₂_congr (fun c _ => (isWordChar_iff c).symm)
  have hnil : u.toList ≠ [] := by
    intro h
    apply hne
    cases u with
    | mk data =>
      cases data with
      | nil => rfl
      | cons c cs => exact (List.cons_ne_nil c cs h).elim
  unfold validateUsername
  simp only [hne, if_false, Option.some.injEq, Bool.and_eq_true, decide_eq_true_eq,
    wordRegexTest, List.all_eq_true, Bool.not_eq_true', List.isEmpty_eq_false, ne_eq,
    hnil, not_false_eq_true, true_and, hall]
  constructor
  · rintro ⟨⟨h3, h20⟩, hw⟩
    rw [utf16Length_of_word u hw] at h3 h20
    exact ⟨h3, h20, hw⟩
  · rintro ⟨h3, h20, hw⟩
    rw [utf16Length_of_word u hw]
    exact ⟨⟨h3, h20⟩, hw⟩

/-- Witness of C19: the username `user_01`. -/
theorem validateUsername_valid_iff_witness :
    (validateUsername "user_01").isValid = some true ↔
      (3 ≤ "user_01".length ∧ "user_01".length ≤ 20 ∧
        ∀ c ∈ "user_01".toList, c.isAlpha = true ∨ c.isDigit = true ∨ c = '_') :=
  validateUsername_valid_iff "user_01" (by decide)

/-! ### What passes the CAPTCHA gate -/

theorem loginVerify_starts_with_matchPassword (d : Deps) (u : User) (pw : JsVal) :
    Effect.matchPassword u pw ∈ (loginVerify d u pw).trace := by
  unfold loginVerify
  simp only [generateToken]
  repeat' split
  all_goals simp

theorem Score.belowHalf_of_number_or_absent (s : Score) (h : s.isNumberOrAbsent = true) :
    s.belowHalf = s.isNumberBelowHalf := by
  cases s with
  | absent => rfl
  | null => cases h
  | bool b => cases h
  | num m e => rfl

/-- C20. For an existing account with `failedLoginAttempts >= 3` and a truthy
`recaptchaToken`, the login attempt reaches password verification exactly
when the verification call returns, its `data.success` is truthy and the
comparison `data.score < 0.5` is false. For a reply whose score is a number or
is absent, that comparison is false exactly when the score is not a number
below 0.5; in particular a reply with `success: true` and no score passes. -/
theorem captcha_gate_passes_iff (d : Deps) (body : Body) (u : User)
    (he : body.email.truthy = true) (hp : body.password.truthy = true)
    (hf : d.findOne (.byEmail body.email) = .ok (some u))
    (hn : u.failedLoginAttempts ≥ 3)
    (ht : body.recaptchaToken.truthy = true) :
    (Effect.matchPassword u body.password ∈ (login d body).trace ↔
      ∃ data, captchaReply d body = .ok data ∧ data.success.truthy = true ∧
        data.score.belowHalf = false) ∧
    (∀ data, captchaReply d body = .ok data → data.score.isNumberOrAbsent = true →
      (Effect.matchPassword u body.password ∈ (login d body).trace ↔
        data.success.truthy = true ∧ data.score.isNumberBelowHalf = false)) ∧
    (∀ data, captchaReply d body = .ok data → data.success = .bool true →
      data.score = .absent → Effect.matchPassword u body.password ∈ (login d body).trace) := by
  have main : Effect.matchPassword u body.password ∈ (login d body).trace ↔
      ∃ data, captchaReply d body = .ok data ∧ data.success.truthy = true ∧
        data.score.belowHalf = false := by
    cases hc : captchaReply d body with
    | error msg =>
      rw [login_captcha_throws d body u msg he hp hf hn ht hc]
      simp [captchaCall]
    | ok data =>
      by_cases hr : data.success.truthy = false ∨ data.score.belowHalf = true
      · rw [login_captcha_rejected d body u data he hp hf hn ht hc hr]
        simp only [captchaCall, List.mem_cons, List.mem_singleton, reduceCtorEq,
          List.not_mem_nil, or_false, false_iff, not_exists, not_and]
        intro data2 h2 hs
        injection h2 with h2
        subst h2
        rcases hr with hr | hr
        · rw [hr] at hs
          cases hs
        · rw [hr]
          simp
      · have hs : data.success.truthy = true := by
          cases hx : data.success.truthy <;> simp_all
        have hb : data.score.belowHalf = false := by
          cases hx : data.score.belowHalf <;> simp_all
        rw [login_captcha_passed d body u data he hp hf hn ht hc hs hb]
        constructor
        · intro _
          exact ⟨data, rfl, hs, hb⟩
        · intro _
          simp only [Run.after, List.mem_append]
          exact Or.inr (loginVerify_starts_with_matchPassword d u body.password)
  refine ⟨main, ?_, ?_⟩
  · intro data hc hschema
    rw [main, ← Score.belowHalf_of_number_or_absent data.score hschema]
    constructor
    · rintro ⟨data2, h2, hs, hb⟩
      rw [hc] at h2
      injection h2 with h2
      subst h2
      exact ⟨hs, hb⟩
    · rintro ⟨hs, hb⟩
      exact ⟨data, hc, hs, hb⟩
  · intro data hc hs hscore
    rw [main]
    refine ⟨data, hc, ?_, ?_⟩
    · rw [hs]
      rfl
    · rw [hscore]
      rfl

/-- Witness of C20: `alice` with three failed logins and a service that
replies `success: true` without a score. -/
theorem captcha_gate_passes_iff_witness :
    (Effect.matchPassword (alice 3) aliceWithCaptcha.password
        ∈ (login captchaNoScore aliceWithCaptcha).trace ↔
      ∃ data, captchaReply captchaNoScore aliceWithCaptcha = .ok data ∧
        data.success.truthy = true ∧ data.score.belowHalf = false) ∧
    (∀ data, captchaReply captchaNoScore aliceWithCaptcha = .ok data →
      data.score.isNumberOrAbsent = true →
      (Effect.matchPassword (alice 3) aliceWithCaptcha.password
          ∈ (login captchaNoScore aliceWithCaptcha).trace ↔
        data.success.truthy = true ∧ data.score.isNumberBelowHalf = false)) ∧
    (∀ data, captchaReply captchaNoScore aliceWithCaptcha = .ok data →
      data.success = .bool true → data.score = .absent →
      Effect.matchPassword (alice 3) aliceWithCaptcha.password
        ∈ (login captchaNoScore aliceWithCaptcha).trace) :=
  captcha_gate_passes_iff captchaNoScore aliceWithCaptcha (alice 3) rfl rfl rfl (by decide) rfl

end LoginSystem
